import Mathlib

/-!
Verification development for the response-finalization pipeline of the
TapCanvas animation agent backend
(`apps/ai-fullstack/backend/src/agent/graph.py`).

The Python source is shallowly embedded below: tool-call batches are lists
of calls whose arguments are parsed-JSON dictionaries, the canvas snapshot
is a JSON value, and every heuristic pass of `finalize_answer` is a pure
Lean function translated line by line from the source.  External effects
(the OpenAI provider, pydantic JSON parsing) are modelled as explicit
parameters, so every definition is executable.

Modelling notes kept throughout:
- Python `str.strip()` is `pyStrip`; Python truthiness is spelled out per
  type (`jTruthy`); Python `a or b` on values is `pyOrJ`.
- A tool call whose `arguments` is not a JSON object makes the source raise
  (`AttributeError` on `.get`), which the outer handler converts into an
  error reply with no mutation batch; the batch pipeline is therefore
  embedded over calls with dictionary arguments, i.e. the non-raising
  executions that actually emit a batch.
- Numbers are modelled as integers; no claim depends on float formatting.
-/

set_option maxHeartbeats 1000000

/-- JSON-like values: the shape of parsed tool-call argument dictionaries
and of the `canvas_context` snapshot. -/
inductive JVal where
  | null
  | bool (b : Bool)
  | num (n : Int)
  | str (s : String)
  | arr (xs : List JVal)
  | obj (fields : List (String × JVal))
deriving BEq, Repr

/-- Whitespace test used by `pyStrip` (Python `str.strip()` default set). -/
def pyWs (c : Char) : Bool := c.isWhitespace

/-- Strip whitespace from both ends of a character list. -/
def stripChars (l : List Char) : List Char :=
  ((l.dropWhile pyWs).reverse.dropWhile pyWs).reverse

/-- Python `str.strip()`. -/
def pyStrip (s : String) : String := String.mk (stripChars s.toList)

/-- Does `pat` occur as a contiguous subsequence of `l` (an empty `pat`
occurs everywhere)? -/
def listHasSub (l pat : List Char) : Bool :=
  match l with
  | [] => pat.isEmpty
  | _ :: rest => pat.isPrefixOf l || listHasSub rest pat

/-- Python `sub in s` substring test. -/
def strContains (s sub : String) : Bool :=
  listHasSub s.toList sub.toList

/-- Python `str.lower()` (ASCII case folding suffices for the keyword
tables of the source). -/
def pyToLower (s : String) : String :=
  String.mk (s.toList.map Char.toLower)

/-- Python `s[:n]` (by code points). -/
def pyTake (s : String) (n : Nat) : String :=
  String.mk (s.toList.take n)

/-- Python `s[n:]` (by code points). -/
def pyDrop (s : String) (n : Nat) : String :=
  String.mk (s.toList.drop n)

/-- Left-to-right non-overlapping replacement with a non-empty pattern;
the fuel is the length of the scanned list. -/
def listReplaceGo : Nat → List Char → List Char → List Char → List Char
  | 0, l, _, _ => l
  | _ + 1, [], _, _ => []
  | n + 1, c :: rest, pat, rep =>
    if pat.isPrefixOf (c :: rest)
    then rep ++ listReplaceGo n ((c :: rest).drop pat.length) pat rep
    else c :: listReplaceGo n rest pat rep

/-- Python `s.replace(pat, rep)`; the source never replaces an empty
pattern, for which this returns `s` unchanged. -/
def pyReplace (s pat rep : String) : String :=
  if pat.isEmpty then s
  else String.mk (listReplaceGo s.toList.length s.toList pat.toList rep.toList)

/-- Split a character list at newline characters. -/
def splitLinesGo : List Char → List Char → List (List Char)
  | [], cur => [cur.reverse]
  | c :: rest, cur =>
    if c = '\n' then cur.reverse :: splitLinesGo rest []
    else splitLinesGo rest (c :: cur)

/-- Python `str.splitlines()` restricted to "\n" boundaries (other line
boundaries strip as whitespace, and blank lines are filtered by every
caller, so the difference is unobservable here). -/
def pySplitLines (s : String) : List String :=
  (splitLinesGo s.toList []).map String.mk

/-- `any(k in s for k in kws)`. -/
def containsAny (s : String) (kws : List String) : Bool :=
  kws.any (fun k => strContains s k)

/-- Python dict lookup `m.get(k)` over an insertion-ordered association list. -/
def pyDictGet {α : Type} (m : List (String × α)) (k : String) : Option α :=
  (m.find? (fun p => p.fst == k)).map (fun p => p.snd)

/-- Python dict write `m[k] = v`: update in place if the key exists
(keeping its position), else append.  Python dict keys are unique, so
first-occurrence update is exact. -/
def pyDictSet {α : Type} (m : List (String × α)) (k : String) (v : α) :
    List (String × α) :=
  match m with
  | [] => [(k, v)]
  | p :: rest => if p.fst == k then (k, v) :: rest else p :: pyDictSet rest k v

/-- Python truthiness of a JSON value. -/
def jTruthy : JVal → Bool
  | .null => false
  | .bool b => b
  | .num n => n != 0
  | .str s => !s.isEmpty
  | .arr xs => !xs.isEmpty
  | .obj fs => !fs.isEmpty

/-- Python `a or b` over possibly-missing values (`None` is falsy). -/
def pyOrJ (a b : Option JVal) : Option JVal :=
  match a with
  | some v => if jTruthy v then some v else b
  | none => b

/-- `isinstance(x, str)` guarded read. -/
def asStr : Option JVal → Option String
  | some (.str s) => some s
  | _ => none

/-- `isinstance(x, dict)` guarded read. -/
def asObj : JVal → Option (List (String × JVal))
  | .obj fs => some fs
  | _ => none

/-- `isinstance(x, list)` guarded read. -/
def asArr : Option JVal → Option (List JVal)
  | some (.arr xs) => some xs
  | _ => none

/-- Python `x == "lit"` for a possibly-missing JSON value: only equal
when the value is that string (nested `JVal` equality is never needed). -/
def jIsStr (v : Option JVal) (lit : String) : Bool :=
  match v with
  | some (.str s) => s == lit
  | _ => false

/-- The pattern `isinstance(x, str) and x.strip()`: a string field that is
non-empty after stripping, returned stripped. -/
def strFieldStripped (fields : List (String × JVal)) (k : String) :
    Option String :=
  match asStr (pyDictGet fields k) with
  | some s => let t := pyStrip s; if t.isEmpty then none else some t
  | none => none

/-- Python `str(x)` / f-string interpolation of a JSON value.  Containers
are abbreviated; no keyword test in the source can match the abbreviation. -/
def pyFormat : JVal → String
  | .null => "None"
  | .bool true => "True"
  | .bool false => "False"
  | .num n => toString n
  | .str s => s
  | .arr _ => "<arr>"
  | .obj _ => "<obj>"

/-- f-string interpolation of a `dict.get` result (`None` prints as "None"). -/
def pyFormatOpt : Option JVal → String
  | some v => pyFormat v
  | none => "None"

/-- Python `list.insert(i, x)` (clamps the index to the list length). -/
def pyInsert {α : Type} (l : List α) (i : Nat) (x : α) : List α :=
  l.take i ++ [x] ++ l.drop i

/-- Python slice assignment `l[i:i] = xs` (clamps the index). -/
def pyInsertMany {α : Type} (l : List α) (i : Nat) (xs : List α) : List α :=
  l.take i ++ xs ++ l.drop i

/-- A proposed canvas operation: parsed tool call with dictionary
arguments (see the modelling notes above). -/
structure ToolCall where
  id : String
  name : String
  arguments : List (String × JVal)
deriving BEq, Repr

/-- `args.get(k)` returning a string only when the value is a string. -/
def argStr (c : ToolCall) (k : String) : Option String :=
  asStr (pyDictGet c.arguments k)

/-- `isinstance(args.get(k), str) and args.get(k).strip()`, stripped. -/
def argStrStripped (c : ToolCall) (k : String) : Option String :=
  strFieldStripped c.arguments k

/-- `args.get("type") == t` (a non-string value never equals a string). -/
def typeIs (c : ToolCall) (t : String) : Bool :=
  argStr c "type" == some t

/-- `args.get("config") or {}`. -/
def cfgOr (c : ToolCall) : JVal :=
  match pyDictGet c.arguments "config" with
  | some v => if jTruthy v then v else .obj []
  | none => .obj []

/-- The (source, target) pair of a `connectNodes` call, exactly as the
duplicate-detection loops of `finalize_answer` extract it
(`sourceNodeId or sourceId`, `targetNodeId or targetId`, both strings,
both non-empty after stripping). -/
def connSrcTgt (c : ToolCall) : Option (String × String) :=
  if c.name == "connectNodes" then
    match pyOrJ (pyDictGet c.arguments "sourceNodeId")
            (pyDictGet c.arguments "sourceId"),
          pyOrJ (pyDictGet c.arguments "targetNodeId")
            (pyDictGet c.arguments "targetId") with
    | some (.str src), some (.str tgt) =>
      let s := pyStrip src
      let t := pyStrip tgt
      if !s.isEmpty && !t.isEmpty then some (s, t) else none
    | _, _ => none
  else none

/-- All connect pairs of a batch, in order. -/
def connPairs (batch : List ToolCall) : List (String × String) :=
  batch.filterMap connSrcTgt

/-- All connect targets of a batch, in order. -/
def connTargetsOf (batch : List ToolCall) : List String :=
  (connPairs batch).map (fun p => p.snd)

/-- The stripped non-empty `nodeId` of a `runNode` call. -/
def runTarget (c : ToolCall) : Option String :=
  if c.name == "runNode" then argStrStripped c "nodeId" else none

/-- All run targets of a batch, in order. -/
def runTargets (batch : List ToolCall) : List String :=
  batch.filterMap runTarget

/-- The stripped non-empty label of a `createNode` of the image family
(`type in ("image", "textToImage")`). -/
def imageCreateLabelOf (c : ToolCall) : Option String :=
  if c.name == "createNode" && (typeIs c "image" || typeIs c "textToImage")
  then argStrStripped c "label" else none

/-- Labels of image-family creates of a batch, in order. -/
def imageCreateLabels (batch : List ToolCall) : List String :=
  batch.filterMap imageCreateLabelOf

/-- The stripped non-empty label of a `createNode` of type `composeVideo`. -/
def videoCreateLabelOf (c : ToolCall) : Option String :=
  if c.name == "createNode" && typeIs c "composeVideo"
  then argStrStripped c "label" else none

/-- Labels of composed-video creates of a batch, in order. -/
def videoCreateLabels (batch : List ToolCall) : List String :=
  batch.filterMap videoCreateLabelOf

/-- Is `c` a `runNode` whose stripped `nodeId` is one of the given
created-video labels (graph.py lines 1677-1681)? -/
def targetsCreatedVideo (vids : List String) (c : ToolCall) : Bool :=
  c.name == "runNode" &&
    (match argStr c "nodeId" with
     | some s => vids.contains (pyStrip s)
     | none => false)

/-- ActionSequencer part (a) — graph.py lines 1657-1682: when a batch
creates both image-family and composed-video nodes (with non-empty
labels), drop every `runNode` targeting a video created in the batch. -/
def videoRunRemovalPass (batch : List ToolCall) : List ToolCall :=
  let imgs := imageCreateLabels batch
  let vids := videoCreateLabels batch
  if !imgs.isEmpty && !vids.isEmpty then
    batch.filter (fun c => !targetsCreatedVideo vids c)
  else batch

/-- The `runNode` call appended by the autopilot pass. -/
def mkAutoRun (label : String) : ToolCall :=
  { id := "auto_run_" ++ label
    name := "runNode"
    arguments := [("nodeId", .str label)] }

/-- The `runNode` calls appended by the autopilot pass: one per
image-family created label not already targeted by a run. -/
def autoRunAppended (batch : List ToolCall) : List ToolCall :=
  ((imageCreateLabels batch).filter
    (fun l => !(runTargets batch).contains l)).map mkAutoRun

/-- ActionSequencer part (b) — graph.py lines 1684-1711: append a
`runNode` for every image-family create whose label is not already a run
target of the batch. -/
def autoRunPass (batch : List ToolCall) : List ToolCall :=
  batch ++ autoRunAppended batch

/-- One character line of the synthesized composed-video prompt
(graph.py lines 298-312); `none` when the line stayed "- ". -/
def characterLine (c : List (String × JVal)) : Option String :=
  let ref := pyOrJ (pyDictGet c "ref")
    (pyOrJ (pyDictGet c "label") (pyDictGet c "nodeId"))
  let nameV := pyDictGet c "name"
  let notes := pyDictGet c "notes"
  let line := "- "
  let line := match asStr nameV with
    | some s => if (pyStrip s).isEmpty then line else line ++ pyStrip s
    | none => line
  let line := match asStr ref with
    | some s =>
      if (pyStrip s).isEmpty then line
      else if pyStrip line != "-" then line ++ "（参考: " ++ pyStrip s ++ "）"
      else line ++ pyStrip s
    | none => line
  let line := match asStr notes with
    | some s => if (pyStrip s).isEmpty then line else line ++ "：" ++ pyStrip s
    | none => line
  if pyStrip line != "-" then some line else none

/-- Append a labelled segment when the string field is present and
non-empty after stripping (shot-line construction). -/
def segAdd (s : List (String × JVal)) (seg : List String) (k lbl : String) :
    List String :=
  match asStr (pyDictGet s k) with
  | some v => if (pyStrip v).isEmpty then seg else seg ++ [lbl ++ pyStrip v]
  | none => seg

/-- One shot line of the synthesized composed-video prompt
(graph.py lines 317-342); `idx` is the 1-based enumeration index. -/
def shotLine (idx : Nat) (s : List (String × JVal)) : String :=
  let sid := match pyDictGet s "id" with
    | some v => if jTruthy v then pyFormat v else "S" ++ toString idx
    | none => "S" ++ toString idx
  let header := match asStr (pyDictGet s "time") with
    | some t => if (pyStrip t).isEmpty then sid else sid ++ "（" ++ pyStrip t ++ "）"
    | none => sid
  let seg := [header]
  let seg := segAdd s seg "shotSize" "景别: "
  let seg := segAdd s seg "camera" "机位/镜头: "
  let seg := segAdd s seg "movement" "运动: "
  let seg := segAdd s seg "action" "内容: "
  let seg := segAdd s seg "composition" "构图: "
  "- " ++ String.intercalate "；" seg

/-- Shot lines with 1-based enumeration; non-dict entries are skipped but
still consume an index (Python `enumerate(shots, start=1)`). -/
def shotLinesGo : Nat → List JVal → List String
  | _, [] => []
  | idx, v :: rest =>
    match asObj v with
    | some s => shotLine idx s :: shotLinesGo (idx + 1) rest
    | none => shotLinesGo (idx + 1) rest

/-- The `parts` list assembled by `_composevideo_prompt_from_structured_config`
(graph.py lines 269-343) before joining and stripping. -/
def composevideoPromptParts (cfg : List (String × JVal)) : List String :=
  let duration := pyOrJ (pyDictGet cfg "durationSeconds")
    (pyOrJ (pyDictGet cfg "duration") (pyDictGet cfg "duration_sec"))
  let fps := pyDictGet cfg "fps"
  let aspect := pyOrJ (pyDictGet cfg "aspectRatio")
    (pyOrJ (pyDictGet cfg "aspect") (pyDictGet cfg "ratio"))
  let style := pyOrJ (pyDictGet cfg "style")
    (pyOrJ (pyDictGet cfg "visualStyle") (pyDictGet cfg "look"))
  let music := pyOrJ (pyDictGet cfg "musicSfx")
    (pyOrJ (pyDictGet cfg "music") (pyDictGet cfg "sfx"))
  let characters := (asArr (pyDictGet cfg "characters")).getD []
  let shots := (asArr (pyDictGet cfg "shots")).getD []
  let metaBits : List String :=
    (match duration with
     | some (.num n) => ["时长: " ++ toString n ++ "s"]
     | _ => []) ++
    (match fps with
     | some (.num n) => ["FPS: " ++ toString n]
     | _ => []) ++
    (match asStr aspect with
     | some a => if (pyStrip a).isEmpty then [] else ["画幅: " ++ pyStrip a]
     | none => [])
  let metaSeg := if metaBits.isEmpty then []
    else [String.intercalate " / " metaBits]
  let styleSeg := match asStr style with
    | some s => if (pyStrip s).isEmpty then []
      else ["风格基准: " ++ pyStrip s]
    | none => []
  let musicSeg := match asStr music with
    | some s => if (pyStrip s).isEmpty then []
      else ["音乐/音效: " ++ pyStrip s]
    | none => []
  let charSeg := if characters.isEmpty then []
    else ["", "角色（保持与画布设定一致）："]
      ++ characters.filterMap (fun v => (asObj v).bind characterLine)
  let shotSeg := if shots.isEmpty then []
    else ["", "分镜（逐镜头）："] ++ shotLinesGo 1 shots
  "15秒分镜视频提示词（分镜清单 + 镜头语言）"
    :: (metaSeg ++ styleSeg ++ musicSeg ++ charSeg ++ shotSeg)

/-- The freeform prompt-like fallback fields, in probe order
(graph.py lines 348-352). -/
def fallbackFreeform (cfg : List (String × JVal)) : String :=
  match strFieldStripped cfg "prompt" with
  | some p => p
  | none => match strFieldStripped cfg "videoPrompt" with
    | some p => p
    | none => match strFieldStripped cfg "storyboard" with
      | some p => p
      | none => ""

/-- `_composevideo_prompt_from_structured_config` (graph.py lines 269-352):
join the assembled parts; if the joined text strips to nothing, fall back
to the first non-empty freeform prompt-like field. -/
def composevideoPromptFromStructuredConfig (cfg : List (String × JVal)) :
    String :=
  let out := pyStrip (String.intercalate "\n" (composevideoPromptParts cfg))
  if !out.isEmpty then out else fallbackFreeform cfg

/-- ToolCallNormalizer, image part (graph.py lines 1336-1347): rewrite
`textToImage` creates to type `image`, mirroring the rewrite in a
dictionary config's `kind` field when it also says `textToImage`. -/
def normalizeImageCall (c : ToolCall) : ToolCall :=
  if c.name == "createNode" && typeIs c "textToImage" then
    let args := pyDictSet c.arguments "type" (.str "image")
    let args := match pyDictGet args "config" with
      | some (.obj cfg) =>
        if jIsStr (pyDictGet cfg "kind") "textToImage" then
          pyDictSet args "config" (.obj (pyDictSet cfg "kind" (.str "image")))
        else args
      | _ => args
    { c with arguments := args }
  else c

/-- Image-normalization pass over the whole batch. -/
def normalizeImagePass (batch : List ToolCall) : List ToolCall :=
  batch.map normalizeImageCall

/-- The call with its config's prompt overwritten by the synthesized
prompt (`cfg["prompt"] = coerced`, graph.py line 1366). -/
def composeVideoRewritten (c : ToolCall) (cfg : List (String × JVal)) :
    ToolCall :=
  let newCfg : JVal :=
    .obj (pyDictSet cfg "prompt"
      (.str (composevideoPromptFromStructuredConfig cfg)))
  { c with arguments := pyDictSet c.arguments "config" newCfg }

/-- Inner part of the composeVideo normalization once the config is known
to be a dictionary lacking a non-empty prompt (graph.py lines 1363-1366). -/
def normalizeComposeVideoCfg (c : ToolCall) (cfg : List (String × JVal)) :
    ToolCall :=
  if (asArr (pyDictGet cfg "shots")).isSome
      || (asArr (pyDictGet cfg "characters")).isSome then
    let coerced := composevideoPromptFromStructuredConfig cfg
    if !coerced.isEmpty then composeVideoRewritten c cfg
    else c
  else c

/-- ToolCallNormalizer, composed-video part (graph.py lines 1349-1366):
ensure a composeVideo create with a dictionary config has a usable prompt,
synthesizing one from structured storyboard fields. -/
def normalizeComposeVideoCall (c : ToolCall) : ToolCall :=
  if c.name == "createNode" && typeIs c "composeVideo" then
    match pyDictGet c.arguments "config" with
    | some (.obj cfg) =>
      (match asStr (pyDictGet cfg "prompt") with
       | some p =>
         if !(pyStrip p).isEmpty then c else normalizeComposeVideoCfg c cfg
       | none => normalizeComposeVideoCfg c cfg)
    | _ => c
  else c

/-- ComposeVideo-normalization pass over the whole batch. -/
def normalizeComposeVideoPass (batch : List ToolCall) : List ToolCall :=
  batch.map normalizeComposeVideoCall

/-- Canvas labels present in the snapshot, stripped
(`_canvas_labels_from_context`, graph.py lines 1251-1264; the source
builds a set, used only for membership). -/
def canvasLabelsFromContext (ctx : Option JVal) : List String :=
  match ctx with
  | some (.obj fields) =>
    (match asArr (pyDictGet fields "nodes") with
     | some nodes =>
       nodes.filterMap (fun n => (asObj n).bind
         (fun f => strFieldStripped f "label"))
     | none => [])
  | _ => []

/-- A scored reference-image candidate
(`_pick_reference_image_labels_from_canvas_context`). -/
structure RefCandidate where
  score : Nat
  idx : Nat
  label : String
deriving BEq, Repr

/-- Eligibility filter and score of one snapshot node
(graph.py lines 1414-1440). -/
def refCandidateOf (storyboardLabel : String) (idx : Nat) (n : JVal) :
    Option RefCandidate :=
  match asObj n with
  | none => none
  | some f =>
    match strFieldStripped f "label" with
    | none => none
    | some label =>
      if label == storyboardLabel then none
      else
        let kindOk := match asStr (pyOrJ (pyDictGet f "kind")
            (pyDictGet f "type")) with
          | some k => k == "image" || k == "textToImage" || k == "mosaic"
          | none => false
        if !kindOk then none
        else if !(jIsStr (pyDictGet f "status") "success") then none
        else match asStr (pyDictGet f "imageUrl") with
          | some u =>
            if (pyStrip u).isEmpty then none
            else if containsAny label
                ["分镜", "九宫格", "storyboard", "视频", "15s视频"] then none
            else
              let score :=
                (if containsAny label
                    ["角色", "设定", "立绘", "主视觉", "character", "design"]
                 then 3 else 0)
                + (if containsAny (pyToLower label) ["fox", "bunny", "rabbit"]
                      || containsAny label ["狐狸", "兔子"]
                   then 2 else 0)
              some { score := score, idx := idx, label := label }
          | none => none

/-- All eligible candidates of the snapshot, with their 0-based index. -/
def refCandidates (ctx : Option JVal) (storyboardLabel : String) :
    List RefCandidate :=
  match ctx with
  | some (.obj fields) =>
    (match asArr (pyDictGet fields "nodes") with
     | some nodes =>
       if nodes.isEmpty then []
       else nodes.enum.filterMap
         (fun p => refCandidateOf storyboardLabel p.fst p.snd)
     | none => [])
  | _ => []

/-- `candidates.sort(key=lambda t: (t[0], t[1]), reverse=True)`: descending
lexicographic order on (score, index).  All (score, index) keys are
distinct (indices come from one enumeration), so any sort agreeing with
this total order yields the unique Python result. -/
def refCandDesc (a b : RefCandidate) : Bool :=
  (b.score < a.score) || (a.score == b.score && b.idx ≤ a.idx)

/-- The same order as a decidable relation, for sorting. -/
def refCandDescP (a b : RefCandidate) : Prop := refCandDesc a b = true

instance refCandDescPDec : DecidableRel refCandDescP := fun a b =>
  inferInstanceAs (Decidable (refCandDesc a b = true))

/-- `_pick_reference_image_labels_from_canvas_context`
(graph.py lines 1405-1443): the labels of the top three candidates. -/
def pickReferenceImageLabelsFromCanvasContext (ctx : Option JVal)
    (storyboardLabel : String) : List String :=
  (((refCandidates ctx storyboardLabel).insertionSort
      refCandDescP).take 3).map (fun c => c.label)

/-- Eligibility filter of `_pick_latest_success_image_label`
(graph.py lines 1568-1585). -/
def latestSuccessImageOf (n : JVal) : Option String :=
  match asObj n with
  | none => none
  | some f =>
    let kindOk := match asStr (pyOrJ (pyDictGet f "kind")
        (pyDictGet f "type")) with
      | some k => k == "image" || k == "textToImage" || k == "mosaic"
      | none => false
    if !kindOk then none
    else if !(jIsStr (pyDictGet f "status") "success") then none
    else match strFieldStripped f "label" with
      | none => none
      | some label =>
        if containsAny label ["分镜", "九宫格", "storyboard"] then none
        else match asStr (pyDictGet f "imageUrl") with
          | some u => if (pyStrip u).isEmpty then none else some label
          | none => none

/-- `_pick_latest_success_image_label` (graph.py lines 1561-1586): newest
successful non-storyboard image on the canvas. -/
def pickLatestSuccessImageLabel (ctx : Option JVal) : Option String :=
  match ctx with
  | some (.obj fields) =>
    (match asArr (pyDictGet fields "nodes") with
     | some nodes =>
       if nodes.isEmpty then none
       else nodes.reverse.findSome? latestSuccessImageOf
     | none => none)
  | _ => none

/-- A one-click reply option offered to the user. -/
structure QuickReply where
  label : String
  input : String
deriving BEq, Repr

/-- `args.get(k)` stripped when a string, else "" (the
`label.strip() if isinstance(label, str) else ""` pattern). -/
def argStrStrippedOrEmpty (c : ToolCall) (k : String) : String :=
  match argStr c k with
  | some s => pyStrip s
  | none => ""

/-- Quick replies offered by the story-continuation suggestion branch
(graph.py lines 1204-1221). -/
def storySuggestionQuickReplies : List QuickReply :=
  [ { label := "方向A：暖心日常"
      input := "我选择方向A（暖心日常）：请基于当前项目已有剧情与角色关系（沿用同一世界观/场景/氛围）续写下一段 15 秒的小故事。先给我紧凑剧情梗概（3-5句），再生成九宫格分镜（image）并连接到15s视频（composeVideo）。" }
  , { label := "方向B：轻冒险任务"
      input := "我选择方向B（轻冒险任务）：请基于当前项目已有剧情续写，加入一个小目标/小危机但保持治愈基调。先给剧情梗概（3-5句），再生成九宫格分镜（image）并连接到15s视频（composeVideo）。" }
  , { label := "方向C：小悬疑反转"
      input := "我选择方向C（小悬疑反转）：请基于当前项目已有剧情续写，前半段制造小谜团，结尾温暖反转（不要跳出既有设定）。先给剧情梗概（3-5句），再生成九宫格分镜（image）并连接到15s视频（composeVideo）。" }
  , { label := "自定义方向…"
      input := "我想自定义续写方向（基于当前项目已有剧情，不要另起炉灶）：\n- 主题/情绪：\n- 场景：\n- 关键事件：\n- 结尾落点：\n请基于我的填写先给梗概，再做九宫格分镜与15s视频。" } ]

/-- Reply text of the story-continuation suggestion branch (line 1222). -/
def storySuggestionText : String :=
  "给你 3 个续写方向，点一个我就按这个继续写；也可以选“自定义方向”把你想要的走向填进去。"

/-- Quick replies substituted by the supervisor gate
(graph.py lines 1229-1242). -/
def gateQuickReplies : List QuickReply :=
  [ { label := "继续创作（先选方向）"
      input := "基于我当前项目画布，先给 3 个可选方向（按钮）让我选；我选完你再在画布创建分镜/视频节点。" }
  , { label := "直接生成（我给具体需求）"
      input := "我想在画布生成一个内容：\n- 类型（图片/分镜/视频）：\n- 主题：\n- 风格：\n- 时长/比例（如需要）：\n请按我的填写创建节点并执行。" }
  , { label := "只聊不操作画布"
      input := "先不操作画布。请先用一句话问我：我想做什么类型的内容、有什么参考、以及希望的风格/时长。" } ]

/-- Holding message substituted by the supervisor gate when the generator
produced no text (line 1244). -/
def gateHoldingText : String :=
  "我先不动画布。你想先聊清楚需求，还是直接点一个选项让我开始执行？"

/-- Quick replies of the new-character confirmation branch
(graph.py lines 1320-1333). -/
def newCharacterQuickReplies : List QuickReply :=
  [ { label := "角色OK，继续分镜"
      input := "新角色我确认OK。请把新角色纳入同一项目设定，基于已有剧情续写下一段，并生成九宫格分镜（image）再连接到15s视频（composeVideo）。" }
  , { label := "重做这个角色"
      input := "这个新角色不满意。请保持同一角色定位与风格，重做 3 个版本给我选（同一个 image 节点出 3 张即可）。" }
  , { label := "不要新角色"
      input := "不要新增角色了。请只用现有角色基于已有剧情续写，并生成九宫格分镜与15s视频。" } ]

/-- Reply text of the new-character confirmation branch (line 1334). -/
def newCharacterText : String :=
  "我先为续写新增了一个角色设定图。你确认角色外观后，我再继续生成续写分镜。"

/-- The story-continuation-suggestion intent test
(graph.py lines 1195-1199). -/
def isStorySuggestionRequest (lastUserText : String) : Bool :=
  containsAny lastUserText ["续写", "后续剧情", "接下来", "续作"]
  && containsAny lastUserText ["推荐", "方向", "灵感", "怎么写"]
  && !containsAny lastUserText ["九宫格", "分镜", "故事板", "storyboard", "15s"]

/-- ContinuityLinker pass 1, new-character gating
(graph.py lines 1249-1334): on a continuation turn that both introduces a
new character image and creates a storyboard grid, keep only the
character create/run pair and ask the user to confirm. -/
def newCharacterGate (lastUserText : String) (ctx : Option JVal)
    (isStorySuggestion : Bool) (batch : List ToolCall) :
    List ToolCall × Option (List QuickReply × String) :=
  let isContinuationStep :=
    containsAny lastUserText ["我选择方向", "自定义续写", "续写"]
    && !isStorySuggestion
  let existingLabels := canvasLabelsFromContext ctx
  let createdImageLabels := batch.filterMap (fun c =>
    if c.name == "createNode" && typeIs c "image"
    then argStrStripped c "label" else none)
  let hasStoryboardCreate := batch.any (fun c =>
    if c.name == "createNode" && typeIs c "image" then
      let label := argStrStrippedOrEmpty c "label"
      let promptRepr := match asObj (cfgOr c) with
        | some f => pyFormatOpt (pyDictGet f "prompt")
        | none => ""
      containsAny (label ++ "\n" ++ promptRepr)
        ["九宫格", "3x3", "分镜", "storyboard"]
    else false)
  let newCharacterLabels := createdImageLabels.filter (fun lbl =>
    (strContains lbl "角色" || strContains (pyToLower lbl) "character")
    && !existingLabels.contains lbl
    && !containsAny lbl ["分镜", "九宫格", "storyboard"])
  if isContinuationStep && !newCharacterLabels.isEmpty && hasStoryboardCreate
  then
    let kept := batch.filterMap (fun c =>
      if c.name == "createNode" then
        if typeIs c "image" then
          match argStr c "label" with
          | some s =>
            if newCharacterLabels.contains (pyStrip s) then some c else none
          | none => none
        else none
      else if c.name == "runNode" then
        match argStr c "nodeId" with
        | some s =>
          if newCharacterLabels.contains (pyStrip s) then some c else none
        | none => none
      else none)
    (kept, some (newCharacterQuickReplies, newCharacterText))
  else (batch, none)

/-- The user-text storyboard-intent keywords (graph.py lines 1371-1374). -/
def wantsStoryboardByUser (lastUserText : String) : Bool :=
  containsAny lastUserText ["分镜", "故事板", "storyboard", "九宫格", "15s"]

/-- Does the batch create a composeVideo node (graph.py lines 1375-1379)? -/
def hasComposeVideoCreate (batch : List ToolCall) : Bool :=
  batch.any (fun c => c.name == "createNode" && typeIs c "composeVideo")

/-- First storyboard-grid image create of the batch
(graph.py lines 1380-1399): its stripped label (or none when unlabelled)
and its string prompt (or none).  A non-string truthy prompt would raise
in the source (string concatenation); modelled as "". -/
def storyboardCreateInfo (batch : List ToolCall) :
    Option (Option String × Option String) :=
  batch.findSome? (fun c =>
    if c.name == "createNode" && typeIs c "image" then
      let promptOpt : Option JVal := match asObj (cfgOr c) with
        | some f => pyDictGet f "prompt"
        | none => none
      let labelOpt := argStrStripped c "label"
      let promptStr := match promptOpt with
        | some (.str s) => s
        | _ => ""
      if containsAny (labelOpt.getD "" ++ "\n" ++ promptStr)
          ["九宫格", "3x3", "分镜", "storyboard"] then
        some (labelOpt,
          match promptOpt with
          | some (.str s) => some s
          | _ => none)
      else none
    else none)

/-- The `connectNodes` call inserted by storyboard reference linking
(graph.py lines 1487-1498). -/
def mkRefConnect (src tgt : String) : ToolCall :=
  { id := "auto_ref_" ++ src ++ "_to_" ++ tgt
    name := "connectNodes"
    arguments := [("sourceNodeId", .str src), ("targetNodeId", .str tgt),
      ("sourceHandle", .str "out-image-wide"),
      ("targetHandle", .str "in-image-wide")] }

/-- The create/run scan of storyboard reference linking
(graph.py lines 1464-1478): last matching create before the first
matching run (the loop breaks at the run). -/
def storyboardScanGo (sbLabel : String) :
    List ToolCall → Nat → Option Nat → Option Nat × Option Nat
  | [], _, ci => (ci, none)
  | c :: rest, i, ci =>
    if c.name == "createNode" &&
        (match argStr c "label" with
         | some s => pyStrip s == sbLabel
         | none => false) then
      storyboardScanGo sbLabel rest (i + 1) (some i)
    else if c.name == "runNode" &&
        (match argStr c "nodeId" with
         | some s => pyStrip s == sbLabel
         | none => false) then
      (ci, some i)
    else storyboardScanGo sbLabel rest (i + 1) ci

/-- ContinuityLinker pass 2, storyboard reference linking
(graph.py lines 1445-1500): connect up to three reference images from the
snapshot into the storyboard node, before its run when present, skipping
pairs already in the batch. -/
def storyboardRefLinkPass (ctx : Option JVal) (sbLabel : String)
    (batch : List ToolCall) : List ToolCall :=
  let referenceLabels := pickReferenceImageLabelsFromCanvasContext ctx sbLabel
  if referenceLabels.isEmpty then batch
  else
    let existingPairs := connPairs batch
    let scan := storyboardScanGo sbLabel batch 0 none
    let insertAt := match scan.snd with
      | some r => r
      | none => batch.length
    let insertAt := match scan.fst with
      | some ci => if insertAt ≤ ci then ci + 1 else insertAt
      | none => insertAt
    let connectCalls := referenceLabels.filterMap (fun src =>
      if existingPairs.contains (src, sbLabel) then none
      else some (mkRefConnect src sbLabel))
    if connectCalls.isEmpty then batch
    else pyInsertMany batch insertAt connectCalls

/-- The derived video label of storyboard-to-video auto-chaining
(graph.py lines 1503-1505). -/
def videoLabelFor (sbLabel : String) : String :=
  let v := pyReplace (pyReplace sbLabel "九宫格分镜" "15s视频") "分镜" "15s视频"
  if v == sbLabel then sbLabel ++ "-15s视频" else v

/-- Python `str.rstrip()`. -/
def pyStripRight (s : String) : String :=
  String.mk ((s.toList.reverse.dropWhile pyWs).reverse)

/-- The optional storyboard-prompt excerpt appended to the synthesized
video prompt (graph.py lines 1506-1516): normalized non-empty lines,
truncated to 1200 characters. -/
def storyboardHintOf (sbPrompt : Option String) : String :=
  match sbPrompt with
  | some p =>
    if (pyStrip p).isEmpty then ""
    else
      let normalized := String.intercalate "\n"
        ((pySplitLines (pyStrip p)).filterMap (fun ln =>
          let t := pyStrip ln
          if t.isEmpty then none else some t))
      let normalized := if normalized.length > 1200
        then pyStripRight (pyTake normalized 1200) ++ "…" else normalized
      "\n\n分镜补充（来自九宫格分镜的镜头描述，用于动作/镜头节奏对齐；以参考图为准）：\n"
        ++ normalized
  | none => ""

/-- The fixed 15-second video prompt template (graph.py lines 1517-1524). -/
def autoVideoPrompt (sbPrompt : Option String) : String :=
  "根据上游参考图片（九宫格分镜图）生成一个15秒的二维动画视频：\n"
  ++ "- 画面风格/角色外观严格跟随参考图；不要改变角色造型与配色。\n"
  ++ "- 按参考图的镜头节奏推进（从1到9），镜头之间自然衔接；保持同一场景光线连续。\n"
  ++ "- 不要出现任何可读文字/水印/Logo。\n"
  ++ "- 输出16:9，动作清晰，镜头稳定，节奏温暖治愈。"
  ++ storyboardHintOf sbPrompt

/-- The composeVideo create appended by auto-chaining (lines 1525-1540). -/
def mkAutoVideoCreate (sbLabel : String) (sbPrompt : Option String) :
    ToolCall :=
  let videoLabel := videoLabelFor sbLabel
  { id := "auto_create_video_" ++ videoLabel
    name := "createNode"
    arguments := [("type", .str "composeVideo"), ("label", .str videoLabel),
      ("config", .obj [("kind", .str "composeVideo"),
        ("durationSeconds", .num 15), ("aspectRatio", .str "16:9"),
        ("prompt", .str (autoVideoPrompt sbPrompt))])] }

/-- The storyboard-to-video connect appended by auto-chaining
(lines 1541-1552). -/
def mkAutoVideoConnect (sbLabel : String) : ToolCall :=
  let videoLabel := videoLabelFor sbLabel
  { id := "auto_connect_" ++ sbLabel ++ "_to_" ++ videoLabel
    name := "connectNodes"
    arguments := [("sourceNodeId", .str sbLabel),
      ("targetNodeId", .str videoLabel),
      ("sourceHandle", .str "out-image"), ("targetHandle", .str "in-image")] }

/-- ContinuityLinker pass 3, storyboard-to-video auto-chaining
(graph.py lines 1502-1552): when a storyboard grid is created without a
composed video, append the video create and its connect. -/
def storyboardVideoChainPass (sbLabel : String) (sbPrompt : Option String)
    (batch : List ToolCall) : List ToolCall :=
  batch ++ [mkAutoVideoCreate sbLabel sbPrompt, mkAutoVideoConnect sbLabel]

/-- The build-on-prior-results intent keywords (graph.py lines 1556-1559). -/
def referenceIntent (lastUserText : String) : Bool :=
  containsAny lastUserText
    ["基于", "同款", "同风格", "沿用", "续写", "延展", "变体", "参考", "保持一致"]

/-- The `connectNodes` call inserted by general reference continuity
(graph.py lines 1642-1654). -/
def mkGeneralRefConnect (src tgt : String) : ToolCall :=
  { id := "auto_ref_" ++ src ++ "_to_" ++ tgt
    name := "connectNodes"
    arguments := [("sourceNodeId", .str src), ("targetNodeId", .str tgt),
      ("sourceHandle", .str "out-image"), ("targetHandle", .str "in-image")] }

/-- Eligibility of one snapshot-batch call as a continuity target
(graph.py lines 1609-1626): a labelled, non-storyboard image create whose
label differs from the upstream label. -/
def generalRefTargetOf (upstream : String) (c : ToolCall) : Option String :=
  if c.name == "createNode" && typeIs c "image" then
    match argStr c "label" with
    | some s =>
      let target := pyStrip s
      if target.isEmpty then none
      else if target == upstream then none
      else
        let promptRepr := match asObj (cfgOr c) with
          | some f => pyFormatOpt (pyDictGet f "prompt")
          | none => ""
        if containsAny (target ++ "\n" ++ promptRepr)
            ["九宫格", "3x3", "分镜", "storyboard"] then none
        else some target
    | none => none
  else none

/-- Is `c` a `runNode` for the given stripped target (lines 1634-1641)? -/
def isRunNodeFor (target : String) (c : ToolCall) : Bool :=
  c.name == "runNode" &&
    (match argStr c "nodeId" with
     | some s => pyStrip s == target
     | none => false)

/-- The insertion loop of general reference continuity
(graph.py lines 1609-1655).  The source iterates over a snapshot of the
batch while inserting into the live list; `idx` is the snapshot index,
also used as the scan origin and fallback insertion position in the live
list, exactly as in the source. -/
def generalContinuityGo (upstream : String)
    (pairs0 : List (String × String)) :
    List ToolCall → Nat → List ToolCall → List String → List ToolCall
  | [], _, live, _ => live
  | c :: rest, idx, live, targets =>
    match generalRefTargetOf upstream c with
    | some target =>
      if targets.contains target || pairs0.contains (upstream, target) then
        generalContinuityGo upstream pairs0 rest (idx + 1) live targets
      else
        let insertAt := match (live.drop (idx + 1)).findIdx?
            (isRunNodeFor target) with
          | some k => idx + 1 + k
          | none => idx + 1
        generalContinuityGo upstream pairs0 rest (idx + 1)
          (pyInsert live insertAt (mkGeneralRefConnect upstream target))
          (targets ++ [target])
    | none => generalContinuityGo upstream pairs0 rest (idx + 1) live targets

/-- ContinuityLinker pass 4, general reference continuity
(graph.py lines 1554-1655). -/
def generalContinuityPass (lastUserText : String) (ctx : Option JVal)
    (batch : List ToolCall) : List ToolCall :=
  if !referenceIntent lastUserText then batch
  else match pickLatestSuccessImageLabel ctx with
    | none => batch
    | some upstream =>
      generalContinuityGo upstream (connPairs batch) batch 0 batch
        (connTargetsOf batch)

/-- The three continuity-linking passes of `finalize_answer`
(graph.py lines 1368-1655): storyboard reference linking,
storyboard-to-video auto-chaining, and general reference continuity,
with the storyboard detection they share. -/
def continuityPasses (lastUserText : String) (ctx : Option JVal)
    (batch : List ToolCall) : List ToolCall :=
  let hasVideo := hasComposeVideoCreate batch
  let sbInfo := storyboardCreateInfo batch
  let sbLabel : Option String := match sbInfo with
    | some (l, _) => l
    | none => none
  let sbPrompt : Option String := match sbInfo with
    | some (_, p) => p
    | none => none
  let wantsStoryboard := wantsStoryboardByUser lastUserText || sbLabel.isSome
  let batch := match sbLabel with
    | some l =>
      if wantsStoryboard then storyboardRefLinkPass ctx l batch else batch
    | none => batch
  let batch := match sbLabel with
    | some l =>
      if wantsStoryboard && !hasVideo
      then storyboardVideoChainPass l sbPrompt batch else batch
    | none => batch
  generalContinuityPass lastUserText ctx batch

/-- The whole `if tool_calls_payload:` body of `finalize_answer`
(graph.py lines 1248-1711): new-character gating, normalization,
continuity linking, video-run removal, and auto-run appending; also
returns the quick-reply/text override of the new-character branch. -/
def processToolCalls (lastUserText : String) (ctx : Option JVal)
    (isStorySuggestion : Bool) (batch : List ToolCall) :
    List ToolCall × Option (List QuickReply × String) :=
  let g := newCharacterGate lastUserText ctx isStorySuggestion batch
  let batch := normalizeImagePass g.fst
  let batch := normalizeComposeVideoPass batch
  let batch := continuityPasses lastUserText ctx batch
  let batch := videoRunRemovalPass batch
  let batch := autoRunPass batch
  (batch, g.snd)

/-- A gathered source entry (`sources_gathered`): its shortened URL and
canonical URL. -/
structure SourceRef where
  shortUrl : String
  value : String
deriving BEq, Repr

/-- Find the first (0-based, in characters) occurrence of `pat`. -/
def findSubIdxGo (pat : List Char) : List Char → Nat → Option Nat
  | [], i => if pat.isEmpty then some i else none
  | l@(_ :: rest), i =>
    if pat.isPrefixOf l then some i else findSubIdxGo pat rest (i + 1)

/-- Python `s.find(pat)` (None instead of -1). -/
def strFind (s pat : String) : Option Nat :=
  findSubIdxGo pat.toList s.toList 0

/-- One entry of the `tapcanvas_actions` block: valid when it is a
dictionary with non-blank string `label` and `input`
(graph.py lines 1154-1163; the label is stripped, the input is not). -/
def actionQuickReply (v : JVal) : Option QuickReply :=
  match asObj v with
  | none => none
  | some f =>
    match asStr (pyDictGet f "label"), asStr (pyDictGet f "input") with
    | some label, some inputText =>
      if (pyStrip label).isEmpty || (pyStrip inputText).isEmpty then none
      else some { label := pyStrip label, input := inputText }
    | _, _ => none

/-- Valid entries capped at six (the source appends and breaks at six). -/
def normalizeActions (actions : List JVal) : List QuickReply :=
  (actions.filterMap actionQuickReply).take 6

/-- `_extract_tapcanvas_actions` (graph.py lines 1130-1166): cut a fenced
`tapcanvas_actions` block out of the reply text and parse it into quick
replies; `jsonParse` stands for `json.loads` (none = raise). -/
def extractTapcanvasActions (jsonParse : String → Option JVal)
    (text : String) : String × Option (List QuickReply) :=
  if !strContains text "```" then (text, none)
  else
    let marker := "```tapcanvas_actions"
    match strFind text marker with
    | none => (text, none)
    | some start =>
      match strFind (pyDrop text (start + marker.length)) "\n" with
      | none => (text, none)
      | some k =>
        let startPayload := start + marker.length + k + 1
        match strFind (pyDrop text startPayload) "```" with
        | none => (text, none)
        | some k2 =>
          let payloadRaw := pyStrip (pyTake (pyDrop text startPayload) k2)
          let cleaned := pyStrip (pyTake text start
            ++ pyDrop text (startPayload + k2 + 3))
          match jsonParse payloadRaw with
          | none => (cleaned, none)
          | some obj =>
            match asObj obj with
            | none => (cleaned, none)
            | some fields =>
              match asArr (pyDictGet fields "actions") with
              | none => (cleaned, none)
              | some actions =>
                let normalized := normalizeActions actions
                (cleaned, if normalized.isEmpty then none else some normalized)

/-- `_fallback_text_from_tool_calls` (graph.py lines 235-266). -/
def fallbackTextFromToolCalls (toolCalls : List ToolCall) : String :=
  let creates := toolCalls.filter (fun c => c.name == "createNode")
  let updates := toolCalls.filter (fun c => c.name == "updateNode")
  let connects := toolCalls.filter (fun c => c.name == "connectNodes")
  let runs := toolCalls.filter (fun c => c.name == "runNode")
  let labels := creates.filterMap (fun c => argStrStripped c "label")
  let parts : List String :=
    (if !creates.isEmpty then
      [if !labels.isEmpty then
        "已在画布创建节点：" ++ String.intercalate "、" (labels.take 3)
          ++ (if labels.length > 3 then "…" else "")
       else "已在画布创建 " ++ toString creates.length ++ " 个节点"]
     else [])
    ++ (if !updates.isEmpty
        then ["已更新 " ++ toString updates.length ++ " 个节点"] else [])
    ++ (if !connects.isEmpty
        then ["已连接 " ++ toString connects.length ++ " 条连线"] else [])
    ++ (if !runs.isEmpty
        then ["已触发运行 " ++ toString runs.length ++ " 个节点"] else [])
  if parts.isEmpty then "已更新画布。"
  else String.intercalate "；" parts ++ "。"

/-- The citation-substitution loop of `finalize_answer`
(graph.py lines 1747-1750): replace every shortened URL occurring in the
text by its canonical form and collect exactly those sources. -/
def substituteSourcesGo : List SourceRef → String → String × List SourceRef
  | [], content => (content, [])
  | s :: rest, content =>
    if strContains content s.shortUrl then
      let r := substituteSourcesGo rest (pyReplace content s.shortUrl s.value)
      (r.fst, s :: r.snd)
    else substituteSourcesGo rest content

/-- The externally observable result of one finalized turn: the reply
text, the mutation batch (attached only when non-empty), the quick
replies (attached only when non-empty), and the retained sources. -/
structure FinalizeResult where
  content : String
  toolCalls : List ToolCall
  quickReplies : List QuickReply
  sources : List SourceRef
deriving BEq, Repr

/-- The OpenAI success path of `finalize_answer` after the generation
stream has been reduced to `(genText, genCalls)`
(graph.py lines 1183-1777): story-suggestion interception, the supervisor
gate, the tool-call pipeline, text fallback, `tapcanvas_actions`
extraction (which overwrites the quick replies), and citation
substitution. -/
def finalizeAnswerOpenai (jsonParse : String → Option JVal)
    (lastUserText : String) (ctx : Option JVal)
    (allowCanvasTools : Option Bool) (sources : List SourceRef)
    (genText : String) (genCalls : List ToolCall) : FinalizeResult :=
  Id.run do
  let mut resultText := genText
  let mut toolCalls := genCalls
  let mut quickReplies : List QuickReply := []
  let storySuggestion := isStorySuggestionRequest lastUserText
  if storySuggestion && !strContains resultText "tapcanvas_actions" then
    toolCalls := []
    quickReplies := storySuggestionQuickReplies
    resultText := storySuggestionText
  if allowCanvasTools == some false then
    toolCalls := []
    if quickReplies.isEmpty then
      quickReplies := gateQuickReplies
    if (pyStrip resultText).isEmpty then
      resultText := gateHoldingText
  if !toolCalls.isEmpty then
    let r := processToolCalls lastUserText ctx storySuggestion toolCalls
    toolCalls := r.fst
    match r.snd with
    | some qrText =>
      quickReplies := qrText.fst
      resultText := qrText.snd
    | none => pure ()
  let mut content := resultText
  if (pyStrip content).isEmpty && !toolCalls.isEmpty then
    content := fallbackTextFromToolCalls toolCalls
  if !(pyStrip content).isEmpty then
    let e := extractTapcanvasActions jsonParse content
    content := e.fst
    quickReplies := e.snd.getD []
  let sub := substituteSourcesGo sources content
  return { content := sub.fst, toolCalls := toolCalls
           quickReplies := quickReplies, sources := sub.snd }

/-- A streaming event of the tool-calling generation request, as
distinguished by `_collect_stream_text_and_tools` (graph.py lines
425-521): a `function_call` output item (added/done), incremental and
atomic argument events, a text delta, and anything else.  String
identifier fields model `getattr(..., None)` reads where Python `None`
and `""` are interchangeably falsy. -/
inductive StreamEvent where
  | itemAdded (callId itemId nameV args : String)
  | argsDelta (itemId delta : String)
  | argsDone (itemId args : String)
  | textDelta (delta : String)
  | other
deriving BEq, Repr

/-- The accumulated record of one tool call (`tool_calls_by_id` values);
an empty name models Python `None`. -/
structure ToolCallRecord where
  id : String
  name : String
  arguments : String
deriving BEq, Repr

/-- Collector state: the insertion-ordered record dictionary and the
item-id/call-id alias map. -/
structure CollectState where
  records : List (String × ToolCallRecord)
  aliasMap : List (String × String)
deriving BEq, Repr

/-- `alias_to_call_id.get(item_id, item_id)`. -/
def resolveCallId (aliasMap : List (String × String)) (itemId : String) :
    String :=
  (pyDictGet aliasMap itemId).getD itemId

/-- One step of the streaming reduction (graph.py lines 427-473). -/
def collectStep (st : CollectState) : StreamEvent → CollectState
  | .itemAdded callId itemId nameV args =>
    if callId.isEmpty then st
    else
      let aliasMap := pyDictSet st.aliasMap callId callId
      let aliasMap := if !itemId.isEmpty
        then pyDictSet aliasMap itemId callId else aliasMap
      let record := (pyDictGet st.records callId).getD
        { id := callId, name := nameV, arguments := "" }
      let record := if !nameV.isEmpty
        then { record with name := nameV } else record
      let record := if !args.isEmpty
        then { record with arguments := args } else record
      { records := pyDictSet st.records callId record, aliasMap := aliasMap }
  | .argsDelta itemId delta =>
    if itemId.isEmpty then st
    else
      let callId := resolveCallId st.aliasMap itemId
      let record := (pyDictGet st.records callId).getD
        { id := callId, name := "", arguments := "" }
      let record := { record with arguments := record.arguments ++ delta }
      { st with records := pyDictSet st.records callId record }
  | .argsDone itemId args =>
    if itemId.isEmpty then st
    else
      let callId := resolveCallId st.aliasMap itemId
      let record := (pyDictGet st.records callId).getD
        { id := callId, name := "", arguments := "" }
      let record := { record with arguments := args }
      { st with records := pyDictSet st.records callId record }
  | .textDelta _ => st
  | .other => st

/-- Fold over the whole event stream. -/
def collectRecords (events : List StreamEvent) : CollectState :=
  events.foldl collectStep { records := [], aliasMap := [] }

/-- A finished tool call as returned to `finalize_answer`: arguments are
parsed JSON, an empty object for blank strings, or the raw string when
the JSON is malformed. -/
structure CollectedCall where
  id : String
  name : String
  arguments : JVal
deriving BEq, Repr

/-- `json.loads(args) if args.strip() else {}`, raw string on failure
(graph.py lines 528-534); `jsonParse` stands for `json.loads`. -/
def finalToolArgs (jsonParse : String → Option JVal) (args : String) :
    JVal :=
  if (pyStrip args).isEmpty then .obj []
  else match jsonParse args with
    | some v => v
    | none => .str args

/-- The finalization loop (graph.py lines 523-535): keep only records
with a non-empty name. -/
def collectFinalize (jsonParse : String → Option JVal)
    (records : List (String × ToolCallRecord)) : List CollectedCall :=
  records.filterMap (fun p =>
    if p.snd.name.isEmpty then none
    else some { id := p.snd.id, name := p.snd.name
                arguments := finalToolArgs jsonParse p.snd.arguments })

/-- `_collect_stream_text_and_tools` (graph.py lines 419-536): the text
is the concatenation of text deltas in arrival order; the tool calls are
the finalized records. -/
def collectStreamTextAndTools (jsonParse : String → Option JVal)
    (events : List StreamEvent) : String × List CollectedCall :=
  (String.join (events.filterMap (fun e =>
      match e with
      | .textDelta s => some s
      | _ => none)),
   collectFinalize jsonParse (collectRecords events).records)

/-- Modelled from the spec: a role profile of the fixed registry (id,
display name).  `agent/roles.py` is not among the sources; §3 of the spec
specifies the registry as a fixed immutable mapping. -/
structure RoleProfile where
  id : String
  name : String
deriving BEq, Repr, DecidableEq

/-- Modelled from the spec: `normalize_role_id` — any known id resolves
to itself, anything unrecognized resolves to the fixed default role
(§4.1 of the spec; `agent/roles.py` is not among the sources). -/
def normalizeRoleId (registry : List RoleProfile)
    (defaultRoleId rid : String) : String :=
  if registry.any (fun r => r.id == rid) then rid else defaultRoleId

/-- The `SearchQueryList` schema (tools_and_schemas.py). -/
structure SearchQueryListV where
  query : List String
  rationale : String
deriving BEq, Repr

/-- The `Reflection` schema (tools_and_schemas.py). -/
structure ReflectionV where
  is_sufficient : Bool
  knowledge_gap : String
  follow_up_queries : List String
deriving BEq, Repr

/-- The `RoleDecision` schema (tools_and_schemas.py); the last two fields
have pydantic defaults. -/
structure RoleDecisionV where
  role_id : String
  role_name : String
  reason : String
  allow_canvas_tools : Bool
  allow_canvas_tools_reason : String
deriving BEq, Repr

/-- The closed set of schemas `_call_openai_structured` is used with. -/
inductive SchemaKind where
  | searchQueryList
  | reflection
  | roleDecision
deriving BEq, Repr, DecidableEq

/-- A value of one of the three schemas. -/
inductive SchemaValue where
  | searchQueryList (v : SearchQueryListV)
  | reflection (v : ReflectionV)
  | roleDecision (v : RoleDecisionV)
deriving BEq, Repr

/-- The schema a value belongs to. -/
def schemaKindOf : SchemaValue → SchemaKind
  | .searchQueryList _ => .searchQueryList
  | .reflection _ => .reflection
  | .roleDecision _ => .roleDecision

/-- Outcomes of the external effects of `_call_openai_structured`:
client construction (`some` = the raised error message), the
schema-constrained streamed attempt, and the plain streamed attempt. -/
structure ProviderEnv where
  clientInit : Option String
  structuredText : Except String String
  plainText : Except String String

/-- Result of the decoder plus whether the plain (unconstrained) provider
call was actually made. -/
structure StructuredCallTrace where
  result : Except String SchemaValue
  plainCalled : Bool

/-- Does one registry entry match the raw fallback text
(graph.py line 603): its id, or its lowercased display name, occurs as a
substring of the lowercased text? -/
def roleMatchesText (raw : String) (r : RoleProfile) : Bool :=
  strContains (pyToLower raw) r.id
    || strContains (pyToLower raw) (pyToLower r.name)

/-- The registry keyword match of the RoleDecision fallback
(graph.py lines 599-606): the first matching registry entry wins; an
empty or missing match falls back to the default role id; the choice is
then normalized against the registry. -/
def roleFallbackResolvedId (registry : List RoleProfile)
    (defaultRoleId raw : String) : String :=
  let chosen := (registry.find? (roleMatchesText raw)).map (fun r => r.id)
  let cid := match chosen with
    | some c => if c.isEmpty then defaultRoleId else c
    | none => defaultRoleId
  normalizeRoleId registry defaultRoleId cid

/-- `mapping.get(resolved_id, mapping[DEFAULT_ROLE_ID])`
(graph.py line 607): `none` models the `KeyError` when even the default
role is missing from the registry. -/
def roleProfileFor (registry : List RoleProfile)
    (defaultRoleId rid : String) : Option RoleProfile :=
  match registry.find? (fun r => r.id == rid) with
  | some p => some p
  | none => registry.find? (fun r => r.id == defaultRoleId)

/-- The attempt sequence of `_call_openai_structured`
(graph.py lines 541-582): the collected text, the first captured
exception message, and whether the plain (unconstrained) provider call
was made.  When client construction failed, both attempts re-raise that
error before reaching the provider; when the structured attempt raised,
the plain call is made (its own failure leaves the text empty). -/
def attemptOutcome (env : ProviderEnv) : String × Option String × Bool :=
  match env.clientInit with
  | some e => ("", some e, false)
  | none =>
    match env.structuredText with
    | .ok t => (t, none, false)
    | .error e =>
      match env.plainText with
      | .ok t2 => (t2, some e, true)
      | .error _ => ("", some e, true)

/-- Did the structured attempt raise with the client available — exactly
when the source makes the plain retry call? -/
def structuredAttemptRaised (env : ProviderEnv) : Bool :=
  env.clientInit.isNone &&
    (match env.structuredText with
     | .error _ => true
     | .ok _ => false)

/-- `_call_openai_structured` (graph.py lines 539-616): structured
attempt, plain retry only when the structured attempt raised, then parse,
then the schema-specific fallback constructor.  `parse` stands for
pydantic `model_validate_json` (none = raise). -/
def callOpenaiStructured (registry : List RoleProfile)
    (defaultRoleId : String)
    (parse : SchemaKind → String → Option SchemaValue)
    (kind : SchemaKind) (prompt : String) (env : ProviderEnv) :
    StructuredCallTrace :=
  let attempt := attemptOutcome env
  let text := attempt.fst
  let firstExc := attempt.snd.fst
  let plainCalled := attempt.snd.snd
  match parse kind text with
  | some v => { result := .ok v, plainCalled := plainCalled }
  | none =>
    match kind with
    | .searchQueryList =>
      let rationale := if firstExc.isSome && text.isEmpty
        then "Fallback due to OpenAI error: " ++ firstExc.getD ""
        else "Fallback from unparseable model output."
      { result := .ok (.searchQueryList
          { query := [prompt], rationale := rationale })
        plainCalled := plainCalled }
    | .reflection =>
      { result := .ok (.reflection
          { is_sufficient := true, knowledge_gap := ""
            follow_up_queries := [] })
        plainCalled := plainCalled }
    | .roleDecision =>
      let raw := pyStrip text
      let resolvedId := roleFallbackResolvedId registry defaultRoleId raw
      match roleProfileFor registry defaultRoleId resolvedId with
      | none => { result := .error "KeyError", plainCalled := plainCalled }
      | some profile =>
        let reason := if firstExc.isSome && raw.isEmpty
          then "Fallback due to OpenAI error: " ++ firstExc.getD ""
          else "Fallback parse from model output: "
            ++ (if (pyTake raw 120).isEmpty then "无理由" else pyTake raw 120)
        { result := .ok (.roleDecision
            { role_id := resolvedId, role_name := profile.name
              reason := reason, allow_canvas_tools := true
              allow_canvas_tools_reason :=
                "Default to allow unless the intent is ambiguous." })
          plainCalled := plainCalled }

/-- A reference a call makes to a node, as resolved by label by the
canvas executor: the (source, target) of a connect, or the target of a
run. -/
def callRefs (c : ToolCall) : List String :=
  match connSrcTgt c with
  | some (s, t) => [s, t]
  | none =>
    match runTarget c with
    | some r => [r]
    | none => []

/-- The stripped non-empty label of any `createNode`. -/
def createLabelOf (c : ToolCall) : Option String :=
  if c.name == "createNode" then argStrStripped c "label" else none

/-- Labels created anywhere in a batch. -/
def createdLabelsOf (batch : List ToolCall) : List String :=
  batch.filterMap createLabelOf

/-- The MutationBatch ordering invariant of §3 of the spec, at one
position: every referenced label that is created somewhere in the batch
is already created strictly before this position. -/
def orderOkAt (batch : List ToolCall) (i : Nat) (c : ToolCall) : Bool :=
  (callRefs c).all (fun lab =>
    !(createdLabelsOf batch).contains lab
    || (createdLabelsOf (batch.take i)).contains lab)

/-- The MutationBatch ordering invariant of §3 of the spec: every
`connectNodes`/`runNode` referencing a label created in the same batch
appears after that label's `createNode`. -/
def orderOk (batch : List ToolCall) : Bool :=
  batch.enum.all (fun p => orderOkAt batch p.fst p.snd)

/-- The composeVideo normalization's "lacks a non-empty prompt" test
(graph.py lines 1360-1362). -/
def cfgLacksPrompt (cfg : List (String × JVal)) : Bool :=
  match asStr (pyDictGet cfg "prompt") with
  | some p => (pyStrip p).isEmpty
  | none => true

/-- The composeVideo normalization's "carries structured storyboard
fields" test (graph.py line 1363). -/
def cfgHasStructured (cfg : List (String × JVal)) : Bool :=
  (asArr (pyDictGet cfg "shots")).isSome
    || (asArr (pyDictGet cfg "characters")).isSome

/-- The accumulated argument string of the record keyed `k` ("" when the
record does not exist — also the default of a fresh record). -/
def recordArgs (m : List (String × ToolCallRecord)) (k : String) : String :=
  ((pyDictGet m k).map (fun r => r.arguments)).getD ""

/-! Concrete fixtures used by counterexamples and witnesses. -/

/-- A `json.loads` stand-in that always raises. -/
def jpNone : String → Option JVal := fun _ => none

/-- A pydantic stand-in that never parses. -/
def parseAlwaysNone : SchemaKind → String → Option SchemaValue :=
  fun _ _ => none

/-- An unlabelled create of the given type. -/
def fixCreate (t : String) : ToolCall :=
  { id := "g1", name := "createNode", arguments := [("type", .str t)] }

/-- A labelled create of the given type. -/
def fixCreateL (t l : String) : ToolCall :=
  { id := "g_" ++ l, name := "createNode"
    arguments := [("type", .str t), ("label", .str l)] }

/-- A run call. -/
def fixRun (l : String) : ToolCall :=
  { id := "gr_" ++ l, name := "runNode", arguments := [("nodeId", .str l)] }

/-- A connect call. -/
def fixConnect (s t : String) : ToolCall :=
  { id := "gc_" ++ s ++ "_" ++ t, name := "connectNodes"
    arguments := [("sourceNodeId", .str s), ("targetNodeId", .str t)] }

/-- A snapshot with one successful image node labelled "U". -/
def fixCtxU : Option JVal :=
  some (.obj [("nodes", .arr [.obj [("label", .str "U"),
    ("kind", .str "image"), ("status", .str "success"),
    ("imageUrl", .str "http://u")]])])

/-- A two-role registry. -/
def regAB : List RoleProfile :=
  [{ id := "alpha", name := "Alpha" }, { id := "beta", name := "Beta" }]

/-- C5 counterexample batch: the image-family create has no label. -/
def c5cexBatch : List ToolCall :=
  [fixCreate "image", fixCreateL "composeVideo" "Y", fixRun "Y"]

/-- C5 witness batch: both creates labelled. -/
def c5wBatch : List ToolCall :=
  [fixCreateL "image" "X", fixCreateL "composeVideo" "Y", fixRun "Y"]

/-- C3 counterexample batch: two creates with the same label. -/
def c3cexBatch : List ToolCall :=
  [fixCreateL "image" "A", fixCreateL "image" "A"]

/-- C3 witness batch. -/
def c3wBatch : List ToolCall :=
  [fixCreateL "image" "Fox", fixRun "Other"]

/-- C2 counterexample batch: the model already proposed the exact
(storyboard, derived-video-label) connect pair. -/
def c2cexBatch : List ToolCall :=
  [fixCreateL "image" "宝宝分镜", fixConnect "宝宝分镜" "宝宝15s视频"]

/-- C2 witness batch. -/
def c2wBatch : List ToolCall := [fixCreateL "image" "狗九宫格分镜"]

/-- C4 failing input: two image creates on a reference-intent turn. -/
def c4cexBatch : List ToolCall :=
  [fixCreateL "image" "A", fixCreateL "image" "B"]

/-- C4 failing input: the user text carrying reference intent ("基于")
and no storyboard keyword. -/
def c4cexUserText : String := "基于参考图继续画"

/-- C1 failing input: the generator proposed one create. -/
def c1cexCalls : List ToolCall := [fixCreateL "image" "Fox"]

/-- C9 witness config: a shot list and no prompt. -/
def c9wCfg : List (String × JVal) :=
  [("shots", .arr [.obj [("action", .str "跑步")]])]

/-- C9 witness call. -/
def c9wCall : ToolCall :=
  { id := "g9", name := "createNode"
    arguments := [("type", .str "composeVideo"), ("config", .obj c9wCfg)] }

/-- C6 counterexample environment: the structured attempt succeeds with
unparseable text. -/
def env6cex : ProviderEnv :=
  { clientInit := none, structuredText := .ok "garbage"
    plainText := .ok "plain" }

/-- C6 witness environment: the structured attempt raises. -/
def env6w : ProviderEnv :=
  { clientInit := none, structuredText := .error "boom"
    plainText := .ok "Alpha please" }

/-- C8 witness stream. -/
def evts8 : List StreamEvent :=
  [.itemAdded "c1" "i1" "createNode" "", .argsDelta "i1" "ab",
   .textDelta "hello", .argsDone "i1" "xy", .argsDelta "i9" "lost"]

/-! Helper lemmas. -/

theorem dropWhile_head?_false {α : Type} (p : α → Bool) (l : List α) :
    ∀ a, (l.dropWhile p).head? = some a → p a = false := by
  induction l with
  | nil => intro a h; simp [List.dropWhile] at h
  | cons x xs ih =>
    intro a h
    rw [List.dropWhile_cons] at h
    by_cases hp : p x
    · rw [if_pos hp] at h; exact ih a h
    · rw [if_neg hp] at h
      simp only [List.head?_cons, Option.some.injEq] at h
      subst h
      simpa using hp

theorem dropWhile_eq_self_of_head {α : Type} (p : α → Bool) (l : List α)
    (h : ∀ a, l.head? = some a → p a = false) : l.dropWhile p = l := by
  cases l with
  | nil => rfl
  | cons x xs =>
    rw [List.dropWhile_cons, if_neg]
    simp [h x rfl]

theorem stripChars_head?_false (l : List Char) :
    ∀ a, (stripChars l).head? = some a → pyWs a = false := by
  intro a h
  unfold stripChars at h
  rw [List.head?_reverse] at h
  have hsuf : ((l.dropWhile pyWs).reverse.dropWhile pyWs)
      <:+ (l.dropWhile pyWs).reverse := List.dropWhile_suffix pyWs
  obtain ⟨t, ht⟩ := hsuf
  have : (l.dropWhile pyWs).reverse.getLast? = some a := by
    rw [← ht, List.getLast?_append, h]
    rfl
  rw [List.getLast?_reverse] at this
  exact dropWhile_head?_false pyWs l a this

theorem stripChars_getLast?_false (l : List Char) :
    ∀ a, (stripChars l).getLast? = some a → pyWs a = false := by
  intro a h
  unfold stripChars at h
  rw [List.getLast?_reverse] at h
  exact dropWhile_head?_false pyWs (l.dropWhile pyWs).reverse a h

theorem stripChars_idem (l : List Char) :
    stripChars (stripChars l) = stripChars l := by
  have h1 : (stripChars l).dropWhile pyWs = stripChars l :=
    dropWhile_eq_self_of_head pyWs _ (stripChars_head?_false l)
  have h2 : (stripChars l).reverse.dropWhile pyWs = (stripChars l).reverse := by
    refine dropWhile_eq_self_of_head pyWs _ ?_
    intro a ha
    rw [List.head?_reverse] at ha
    exact stripChars_getLast?_false l a ha
  show List.reverse (List.dropWhile pyWs
    (List.reverse (List.dropWhile pyWs (stripChars l)))) = stripChars l
  rw [h1, h2, List.reverse_reverse]

theorem toList_mk (l : List Char) : (String.mk l).toList = l := rfl

theorem pyStrip_idem (s : String) : pyStrip (pyStrip s) = pyStrip s := by
  show String.mk (stripChars (String.mk (stripChars s.toList)).toList)
      = String.mk (stripChars s.toList)
  rw [toList_mk, stripChars_idem]

theorem strFieldStripped_stripped {f : List (String × JVal)} {k t : String}
    (h : strFieldStripped f k = some t) :
    pyStrip t = t ∧ t.isEmpty = false := by
  unfold strFieldStripped at h
  cases hs : asStr (pyDictGet f k) with
  | none => rw [hs] at h; cases h
  | some s =>
    rw [hs] at h
    simp only at h
    by_cases he : (pyStrip s).isEmpty
    · rw [if_pos he] at h; cases h
    · rw [if_neg he] at h
      obtain rfl : pyStrip s = t := by injection h
      refine ⟨pyStrip_idem s, by simpa using he⟩

theorem pyInsertMany_perm {α : Type} (l : List α) (i : Nat) (xs : List α) :
    (pyInsertMany l i xs).Perm (xs ++ l) := by
  unfold pyInsertMany
  have h0 : (l.take i ++ xs).Perm (xs ++ l.take i) := List.perm_append_comm
  have h2 := h0.append_right (l.drop i)
  refine h2.trans ?_
  rw [List.append_assoc, List.take_append_drop]

theorem pyInsert_perm {α : Type} (l : List α) (i : Nat) (x : α) :
    (pyInsert l i x).Perm (x :: l) :=
  pyInsertMany_perm l i [x]

theorem filterMap_pyInsertMany_perm {α β : Type} (f : α → Option β)
    (l : List α) (i : Nat) (xs : List α) :
    ((pyInsertMany l i xs).filterMap f).Perm
      (xs.filterMap f ++ l.filterMap f) := by
  unfold pyInsertMany
  rw [List.filterMap_append, List.filterMap_append]
  have h0 : ((l.take i).filterMap f ++ xs.filterMap f).Perm
      (xs.filterMap f ++ (l.take i).filterMap f) := List.perm_append_comm
  have h2 := h0.append_right ((l.drop i).filterMap f)
  refine h2.trans ?_
  rw [List.append_assoc, ← List.filterMap_append, List.take_append_drop]

theorem imageCreateLabels_stripped (batch : List ToolCall) :
    ∀ l ∈ imageCreateLabels batch, pyStrip l = l ∧ l.isEmpty = false := by
  intro l hl
  rw [imageCreateLabels, List.mem_filterMap] at hl
  obtain ⟨c, _, hc⟩ := hl
  unfold imageCreateLabelOf at hc
  by_cases hn : (c.name == "createNode"
      && (typeIs c "image" || typeIs c "textToImage")) = true
  · rw [if_pos hn] at hc
    exact strFieldStripped_stripped hc
  · rw [if_neg hn] at hc; cases hc

theorem runTargets_append (a b : List ToolCall) :
    runTargets (a ++ b) = runTargets a ++ runTargets b :=
  List.filterMap_append a b runTarget

theorem runTarget_mkAutoRun (x : String) (h1 : pyStrip x = x)
    (h2 : x.isEmpty = false) : runTarget (mkAutoRun x) = some x := by
  unfold runTarget mkAutoRun argStrStripped strFieldStripped pyDictGet asStr
  simp only [beq_self_eq_true, if_true, List.find?, Option.map_some]
  show (if (pyStrip x).isEmpty = true then none else some (pyStrip x))
      = some x
  rw [h1]
  simp [h2]

theorem runTargets_map_mkAutoRun (xs : List String)
    (h : ∀ x ∈ xs, pyStrip x = x ∧ x.isEmpty = false) :
    runTargets (xs.map mkAutoRun) = xs := by
  induction xs with
  | nil => rfl
  | cons x rest ih =>
    rw [List.map_cons]
    show List.filterMap runTarget (mkAutoRun x :: rest.map mkAutoRun)
        = x :: rest
    rw [List.filterMap_cons,
      runTarget_mkAutoRun x (h x (by simp)).1 (h x (by simp)).2]
    exact congrArg (x :: ·) (ih fun y hy => h y (List.mem_cons_of_mem x hy))

/-! Claim C5 — video-run removal. -/

/-- C5 counterexample: a batch that creates an image-family node (without
a label) and a labelled composeVideo node "Y" with `runNode("Y")`; the
pass leaves the batch unchanged, so the run targeting the created video
survives, although the claim requires its removal whenever any
image-family node is created alongside a composeVideo node. -/
theorem c5_unlabelled_image_counterexample :
    videoRunRemovalPass c5cexBatch = c5cexBatch
    ∧ c5cexBatch.any (fun c =>
        c.name == "createNode"
        && (typeIs c "image" || typeIs c "textToImage")) = true
    ∧ c5cexBatch.any (fun c =>
        c.name == "createNode" && typeIs c "composeVideo") = true
    ∧ videoCreateLabels c5cexBatch = ["Y"]
    ∧ targetsCreatedVideo (videoCreateLabels c5cexBatch) (fixRun "Y") = true
    ∧ fixRun "Y" ∈ videoRunRemovalPass c5cexBatch := by
  refine ⟨rfl, rfl, rfl, rfl, rfl, ?_⟩
  show fixRun "Y" ∈ videoRunRemovalPass c5cexBatch
  rw [show videoRunRemovalPass c5cexBatch = c5cexBatch from rfl]
  right; right; exact List.mem_singleton.mpr rfl

/-- C5 (amended): when the batch creates at least one image-family node
with a non-empty label and at least one composeVideo node with a
non-empty label, every `runNode` targeting a created video label is
removed, every other call is kept, and the relative order is preserved
(the output is a sublist of the input). -/
theorem c5_video_run_removal (batch : List ToolCall)
    (h1 : imageCreateLabels batch ≠ [])
    (h2 : videoCreateLabels batch ≠ []) :
    (∀ c ∈ videoRunRemovalPass batch,
      targetsCreatedVideo (videoCreateLabels batch) c = false)
    ∧ (∀ c ∈ batch,
        targetsCreatedVideo (videoCreateLabels batch) c = false →
        c ∈ videoRunRemovalPass batch)
    ∧ (videoRunRemovalPass batch).Sublist batch := by
  have e1 : (imageCreateLabels batch).isEmpty = false := by
    cases hh : imageCreateLabels batch with
    | nil => exact absurd hh h1
    | cons a t => rfl
  have e2 : (videoCreateLabels batch).isEmpty = false := by
    cases hh : videoCreateLabels batch with
    | nil => exact absurd hh h2
    | cons a t => rfl
  have hv : videoRunRemovalPass batch = batch.filter
      (fun c => !targetsCreatedVideo (videoCreateLabels batch) c) := by
    show (if (!(imageCreateLabels batch).isEmpty
        && !(videoCreateLabels batch).isEmpty) = true
      then batch.filter
        (fun c => !targetsCreatedVideo (videoCreateLabels batch) c)
      else batch) = batch.filter
        (fun c => !targetsCreatedVideo (videoCreateLabels batch) c)
    rw [e1, e2]
    rfl
  refine ⟨?_, ?_, ?_⟩
  · intro c hc
    rw [hv, List.mem_filter] at hc
    simpa using hc.2
  · intro c hc hf
    rw [hv, List.mem_filter]
    exact ⟨hc, by simp [hf]⟩
  · rw [hv]; exact List.filter_sublist batch

/-- Witness for `c5_video_run_removal` at a concrete batch. -/
theorem c5_video_run_removal_witness :
    (∀ c ∈ videoRunRemovalPass c5wBatch,
      targetsCreatedVideo (videoCreateLabels c5wBatch) c = false)
    ∧ (∀ c ∈ c5wBatch,
        targetsCreatedVideo (videoCreateLabels c5wBatch) c = false →
        c ∈ videoRunRemovalPass c5wBatch)
    ∧ (videoRunRemovalPass c5wBatch).Sublist c5wBatch :=
  c5_video_run_removal c5wBatch (by decide) (by decide)

/-! Claim C3 — auto-run appending. -/

/-- C3 counterexample: two creates share the label "A"; the pass appends
two `runNode("A")` calls, so the newly created node "A" is targeted by
two runs, not exactly one. -/
theorem c3_duplicate_label_counterexample :
    (runTargets c3cexBatch).contains "A" = false
    ∧ imageCreateLabels c3cexBatch = ["A", "A"]
    ∧ (runTargets (autoRunPass c3cexBatch)).count "A" = 2 := by
  refine ⟨rfl, rfl, by decide⟩

/-- C3 (amended): the pass only appends, one `runNode` per image-family
create whose label is untargeted; provided the image-family create labels
are pairwise distinct and no label is targeted by two pre-existing runs,
every image-family created label is targeted by exactly one run in the
output. -/
theorem c3_auto_run (batch : List ToolCall)
    (h1 : (imageCreateLabels batch).Nodup)
    (h2 : (runTargets batch).Nodup) :
    autoRunPass batch = batch ++ autoRunAppended batch
    ∧ (∀ l ∈ imageCreateLabels batch, l ∉ runTargets batch →
        mkAutoRun l ∈ autoRunAppended batch)
    ∧ (∀ l ∈ imageCreateLabels batch,
        (runTargets (autoRunPass batch)).count l = 1) := by
  have hrt : runTargets (autoRunAppended batch)
      = (imageCreateLabels batch).filter
        (fun x => !(runTargets batch).contains x) := by
    unfold autoRunAppended
    refine runTargets_map_mkAutoRun _ ?_
    intro x hx
    exact imageCreateLabels_stripped batch x
      ((List.filter_sublist _).mem hx)
  refine ⟨rfl, ?_, ?_⟩
  · intro l hl hnl
    unfold autoRunAppended
    refine List.mem_map_of_mem mkAutoRun ?_
    rw [List.mem_filter]
    exact ⟨hl, by simp [hnl]⟩
  · intro l hl
    rw [show autoRunPass batch = batch ++ autoRunAppended batch from rfl,
      runTargets_append, List.count_append, hrt]
    by_cases hmem : l ∈ runTargets batch
    · rw [List.count_eq_one_of_mem h2 hmem]
      rw [List.count_eq_zero_of_not_mem]
      intro hcontra
      rw [List.mem_filter] at hcontra
      have hc : (runTargets batch).contains l = true :=
        List.elem_eq_true_of_mem hmem
      rw [hc] at hcontra
      simp at hcontra
    · rw [List.count_eq_zero_of_not_mem hmem, Nat.zero_add]
      rw [List.count_filter (by simpa using hmem)]
      exact List.count_eq_one_of_mem h1 hl

/-- Witness for `c3_auto_run` at a concrete batch. -/
theorem c3_auto_run_witness :
    autoRunPass c3wBatch = c3wBatch ++ autoRunAppended c3wBatch
    ∧ (∀ l ∈ imageCreateLabels c3wBatch, l ∉ runTargets c3wBatch →
        mkAutoRun l ∈ autoRunAppended c3wBatch)
    ∧ (∀ l ∈ imageCreateLabels c3wBatch,
        (runTargets (autoRunPass c3wBatch)).count l = 1) :=
  c3_auto_run c3wBatch (by decide) (by decide)

/-! Claim C10 — reference-image ranking. -/

theorem refCandDesc_trans : ∀ a b c : RefCandidate,
    refCandDesc a b = true → refCandDesc b c = true →
    refCandDesc a c = true := by
  intro a b c hab hbc
  simp only [refCandDesc, Bool.or_eq_true, Bool.and_eq_true,
    decide_eq_true_eq, beq_iff_eq] at *
  omega

theorem refCandDesc_total : ∀ a b : RefCandidate,
    (refCandDesc a b || refCandDesc b a) = true := by
  intro a b
  simp only [refCandDesc, Bool.or_eq_true, Bool.and_eq_true,
    decide_eq_true_eq, beq_iff_eq]
  omega

/-- C10: reference selection is a total deterministic ranking — the
picker returns exactly the labels of the first three candidates of a
permutation of the eligible candidates that is sorted by descending
(score, snapshot position); all candidate keys are distinct, so this
order is unique. -/
theorem c10_reference_picker (ctx : Option JVal) (storyboardLabel : String) :
    ((refCandidates ctx storyboardLabel).insertionSort refCandDescP).Perm
        (refCandidates ctx storyboardLabel)
    ∧ ((refCandidates ctx storyboardLabel).insertionSort
        refCandDescP).Pairwise refCandDescP
    ∧ pickReferenceImageLabelsFromCanvasContext ctx storyboardLabel
      = (((refCandidates ctx storyboardLabel).insertionSort
          refCandDescP).take 3).map (fun c => c.label)
    ∧ (pickReferenceImageLabelsFromCanvasContext ctx
        storyboardLabel).length ≤ 3 := by
  have htot : IsTotal RefCandidate refCandDescP :=
    ⟨fun a b => by
      have := refCandDesc_total a b
      rcases Bool.or_eq_true_iff.mp this with h | h
      · exact Or.inl h
      · exact Or.inr h⟩
  have htrans : IsTrans RefCandidate refCandDescP :=
    ⟨fun a b c hab hbc => refCandDesc_trans a b c hab hbc⟩
  refine ⟨List.perm_insertionSort _ _,
    @List.sorted_insertionSort RefCandidate refCandDescP _ htot htrans _,
    rfl, ?_⟩
  rw [pickReferenceImageLabelsFromCanvasContext, List.length_map]
  exact List.length_take_le 3 _

/-! Claim C9 — composeVideo prompt synthesis. -/

/-- C9: for a composeVideo create with a dictionary config, a config with
a non-empty prompt is left unchanged; one lacking a prompt but carrying a
shots or characters list gets `config.prompt` set to the synthesized
prompt exactly when that synthesis is non-empty; the synthesis falls back
to the freeform prompt-like fields when the joined parts strip to
nothing; and the assembled parts always start with the fixed header. -/
theorem c9_composevideo_prompt (c : ToolCall) (cfg : List (String × JVal))
    (hname : c.name = "createNode")
    (htype : typeIs c "composeVideo" = true)
    (hcfg : pyDictGet c.arguments "config" = some (.obj cfg)) :
    (cfgLacksPrompt cfg = false → normalizeComposeVideoCall c = c)
    ∧ (cfgLacksPrompt cfg = true → cfgHasStructured cfg = true →
        ((composevideoPromptFromStructuredConfig cfg).isEmpty = false →
          normalizeComposeVideoCall c = composeVideoRewritten c cfg)
        ∧ ((composevideoPromptFromStructuredConfig cfg).isEmpty = true →
            normalizeComposeVideoCall c = c))
    ∧ (cfgLacksPrompt cfg = true → cfgHasStructured cfg = false →
        normalizeComposeVideoCall c = c)
    ∧ (pyStrip (String.intercalate "\n" (composevideoPromptParts cfg)) = ""
        → composevideoPromptFromStructuredConfig cfg = fallbackFreeform cfg)
    ∧ (composevideoPromptParts cfg).head?
      = some "15秒分镜视频提示词（分镜清单 + 镜头语言）" := by
  have hcond : (c.name == "createNode" && typeIs c "composeVideo") = true :=
    by rw [hname, htype]; rfl
  have hmain : normalizeComposeVideoCall c =
      (match asStr (pyDictGet cfg "prompt") with
       | some p => if !(pyStrip p).isEmpty then c
         else normalizeComposeVideoCfg c cfg
       | none => normalizeComposeVideoCfg c cfg) := by
    unfold normalizeComposeVideoCall
    rw [hcond, hcfg]
    rfl
  have hcfgStep : cfgHasStructured cfg = true →
      ((composevideoPromptFromStructuredConfig cfg).isEmpty = false →
        normalizeComposeVideoCfg c cfg = composeVideoRewritten c cfg)
      ∧ ((composevideoPromptFromStructuredConfig cfg).isEmpty = true →
          normalizeComposeVideoCfg c cfg = c) := by
    intro hs
    unfold normalizeComposeVideoCfg
    rw [show ((asArr (pyDictGet cfg "shots")).isSome
      || (asArr (pyDictGet cfg "characters")).isSome) = true from hs]
    constructor <;> intro he <;> simp [he]
  have hcfgNo : cfgHasStructured cfg = false →
      normalizeComposeVideoCfg c cfg = c := by
    intro hs
    unfold normalizeComposeVideoCfg
    rw [show ((asArr (pyDictGet cfg "shots")).isSome
      || (asArr (pyDictGet cfg "characters")).isSome) = false from hs]
    rfl
  have hred : cfgLacksPrompt cfg = true →
      normalizeComposeVideoCall c = normalizeComposeVideoCfg c cfg := by
    intro hlack
    unfold cfgLacksPrompt at hlack
    rw [hmain]
    cases hp : asStr (pyDictGet cfg "prompt") with
    | none => rfl
    | some p =>
      rw [hp] at hlack
      simp at hlack
      simp [hlack]
  refine ⟨?_, ?_, ?_, ?_, rfl⟩
  · intro hlack
    unfold cfgLacksPrompt at hlack
    rw [hmain]
    cases hp : asStr (pyDictGet cfg "prompt") with
    | none => rw [hp] at hlack; cases hlack
    | some p =>
      rw [hp] at hlack
      simp at hlack
      simp [hlack]
  · intro hlack hs
    rw [hred hlack]
    exact hcfgStep hs
  · intro hlack hs
    rw [hred hlack]
    exact hcfgNo hs
  · intro h
    unfold composevideoPromptFromStructuredConfig
    rw [h]
    rfl

/-- Witness for `c9_composevideo_prompt` at a concrete composeVideo
create carrying a shot list and no prompt. -/
theorem c9_composevideo_prompt_witness :
    (cfgLacksPrompt c9wCfg = false → normalizeComposeVideoCall c9wCall = c9wCall)
    ∧ (cfgLacksPrompt c9wCfg = true → cfgHasStructured c9wCfg = true →
        ((composevideoPromptFromStructuredConfig c9wCfg).isEmpty = false →
          normalizeComposeVideoCall c9wCall = composeVideoRewritten c9wCall c9wCfg)
        ∧ ((composevideoPromptFromStructuredConfig c9wCfg).isEmpty = true →
            normalizeComposeVideoCall c9wCall = c9wCall))
    ∧ (cfgLacksPrompt c9wCfg = true → cfgHasStructured c9wCfg = false →
        normalizeComposeVideoCall c9wCall = c9wCall)
    ∧ (pyStrip (String.intercalate "\n" (composevideoPromptParts c9wCfg)) = ""
        → composevideoPromptFromStructuredConfig c9wCfg = fallbackFreeform c9wCfg)
    ∧ (composevideoPromptParts c9wCfg).head?
      = some "15秒分镜视频提示词（分镜清单 + 镜头语言）" :=
  c9_composevideo_prompt c9wCall c9wCfg rfl rfl rfl

/-! Claim C7 — role fallback matching. -/

/-- C7 counterexample: with registry [alpha, beta] and raw text
"alpha beta", the entry beta matches the text, yet the resolved id is
"alpha" — the first matching registry entry wins, so a matching role is
not always the resolved one. -/
theorem c7_first_match_counterexample :
    (⟨"beta", "Beta"⟩ : RoleProfile) ∈ regAB
    ∧ roleMatchesText "alpha beta" ⟨"beta", "Beta"⟩ = true
    ∧ roleFallbackResolvedId regAB "alpha" "alpha beta" = "alpha"
    ∧ ("alpha" : String) ≠ "beta" := by
  refine ⟨?_, by decide, by decide, by decide⟩
  right; exact List.mem_singleton.mpr rfl

/-- C7 (amended): the FIRST registry entry whose id or lowercased display
name occurs in the lowercased text wins (when its id is non-empty); when
no entry matches, the resolved id is the fixed default role id. -/
theorem c7_role_fallback (registry : List RoleProfile)
    (defaultRoleId raw : String) :
    (∀ r, registry.find? (roleMatchesText raw) = some r →
      r.id.isEmpty = false →
      roleFallbackResolvedId registry defaultRoleId raw = r.id)
    ∧ ((∀ r ∈ registry, roleMatchesText raw r = false) →
        roleFallbackResolvedId registry defaultRoleId raw = defaultRoleId) := by
  constructor
  · intro r hfind hid
    unfold roleFallbackResolvedId
    rw [hfind]
    show normalizeRoleId registry defaultRoleId
      (if r.id.isEmpty = true then defaultRoleId else r.id) = r.id
    rw [hid]
    show normalizeRoleId registry defaultRoleId r.id = r.id
    unfold normalizeRoleId
    rw [if_pos]
    rw [List.any_eq_true]
    exact ⟨r, List.mem_of_find?_eq_some hfind, beq_self_eq_true r.id⟩
  · intro hnone
    unfold roleFallbackResolvedId
    rw [List.find?_eq_none.mpr (by intro x hx; simp [hnone x hx])]
    show normalizeRoleId registry defaultRoleId defaultRoleId = defaultRoleId
    unfold normalizeRoleId
    split
    · rfl
    · rfl

/-- Witness for `c7_role_fallback`: the first matching entry wins on a
concrete registry, and an unmatched text resolves to the default. -/
theorem c7_role_fallback_witness :
    roleFallbackResolvedId regAB "beta" "I want the Alpha role" = "alpha"
    ∧ roleFallbackResolvedId regAB "beta" "nothing matches" = "beta" := by
  have h := c7_role_fallback regAB "beta" "I want the Alpha role"
  have h2 := c7_role_fallback regAB "beta" "nothing matches"
  exact ⟨h.1 ⟨"alpha", "Alpha"⟩ (by decide) (by decide),
    h2.2 (by intro r hr; fin_cases hr <;> decide)⟩

/-! Claim C6 — structured decoder fallback behaviour. -/

/-- C6 counterexample: the structured attempt succeeds but returns
unparseable text; the claim says a parse failure triggers one
unconstrained retry, yet no plain call is made — the decoder goes
straight to the schema default. -/
theorem c6_no_retry_on_parse_failure_counterexample :
    parseAlwaysNone SchemaKind.searchQueryList "garbage" = none
    ∧ (callOpenaiStructured regAB "alpha" parseAlwaysNone
        .searchQueryList "prompt0" env6cex).plainCalled = false
    ∧ (callOpenaiStructured regAB "alpha" parseAlwaysNone
        .searchQueryList "prompt0" env6cex).result
      = .ok (.searchQueryList
          ⟨["prompt0"], "Fallback from unparseable model output."⟩) :=
  ⟨rfl, rfl, rfl⟩

/-- C6 (amended): for the three supported schemas the decoder never
raises and returns a value of the requested schema; the plain
(unconstrained) retry is made exactly when the structured attempt raised
with a client available — a parse failure alone does not retry; and the
schema-specific defaults are as described (prompt wrapped as one query;
sufficient with no follow-ups; keyword-matched role). -/
theorem c6_structured_decoder (registry : List RoleProfile)
    (defaultRoleId : String)
    (parse : SchemaKind → String → Option SchemaValue)
    (kind : SchemaKind) (prompt : String) (env : ProviderEnv)
    (hWT : ∀ k s v, parse k s = some v → schemaKindOf v = k)
    (hDef : registry.any (fun r => r.id == defaultRoleId) = true) :
    (∃ v, (callOpenaiStructured registry defaultRoleId parse kind prompt
        env).result = .ok v ∧ schemaKindOf v = kind)
    ∧ (callOpenaiStructured registry defaultRoleId parse kind prompt
        env).plainCalled = structuredAttemptRaised env
    ∧ (kind = .searchQueryList →
        parse kind (attemptOutcome env).fst = none →
        ∃ rat, (callOpenaiStructured registry defaultRoleId parse kind
            prompt env).result
          = .ok (.searchQueryList { query := [prompt], rationale := rat }))
    ∧ (kind = .reflection →
        parse kind (attemptOutcome env).fst = none →
        (callOpenaiStructured registry defaultRoleId parse kind prompt
            env).result
          = .ok (.reflection ⟨true, "", []⟩))
    ∧ (kind = .roleDecision →
        parse kind (attemptOutcome env).fst = none →
        ∃ rd, (callOpenaiStructured registry defaultRoleId parse kind
            prompt env).result = .ok (.roleDecision rd)
          ∧ rd.role_id = roleFallbackResolvedId registry defaultRoleId
              (pyStrip (attemptOutcome env).fst)) := by
  have hplain : (attemptOutcome env).snd.snd = structuredAttemptRaised env := by
    unfold attemptOutcome structuredAttemptRaised
    cases env.clientInit with
    | some e => rfl
    | none =>
      cases env.structuredText with
      | ok t => rfl
      | error e =>
        cases env.plainText with
        | ok t2 => rfl
        | error e2 => rfl
  have hprofile : ∀ rid, (roleProfileFor registry defaultRoleId rid).isSome
      = true := by
    intro rid
    unfold roleProfileFor
    cases hf : registry.find? (fun r => r.id == rid) with
    | some p => rfl
    | none =>
      simp only
      rw [List.any_eq_true] at hDef
      obtain ⟨r, hr, hb⟩ := hDef
      rw [Option.isSome_iff_exists]
      have : registry.find? (fun x => x.id == defaultRoleId) ≠ none := by
        intro hcontra
        rw [List.find?_eq_none] at hcontra
        exact hcontra r hr hb
      cases hq : registry.find? (fun x => x.id == defaultRoleId) with
      | none => exact absurd hq this
      | some p => exact ⟨p, rfl⟩
  cases hp : parse kind (attemptOutcome env).fst with
  | some v =>
    have hq : callOpenaiStructured registry defaultRoleId parse kind prompt
        env = ⟨.ok v, (attemptOutcome env).snd.snd⟩ := by
      simp only [callOpenaiStructured]
      rw [hp]
    rw [hq]
    refine ⟨⟨v, rfl, hWT kind _ v hp⟩, hplain, ?_, ?_, ?_⟩
    · intro _ hnone; cases hnone
    · intro _ hnone; cases hnone
    · intro _ hnone; cases hnone
  | none =>
    cases kind with
    | searchQueryList =>
      have hq : callOpenaiStructured registry defaultRoleId parse
          .searchQueryList prompt env
          = ⟨.ok (.searchQueryList ⟨[prompt],
              if ((attemptOutcome env).snd.fst.isSome
                  && (attemptOutcome env).fst.isEmpty)
              then "Fallback due to OpenAI error: "
                ++ (attemptOutcome env).snd.fst.getD ""
              else "Fallback from unparseable model output."⟩),
            (attemptOutcome env).snd.snd⟩ := by
        simp only [callOpenaiStructured]
        rw [hp]
      rw [hq]
      refine ⟨⟨_, rfl, rfl⟩, hplain, ?_, ?_, ?_⟩
      · intro _ _; exact ⟨_, rfl⟩
      · intro hk; cases hk
      · intro hk; cases hk
    | reflection =>
      have hq : callOpenaiStructured registry defaultRoleId parse
          .reflection prompt env
          = ⟨.ok (.reflection ⟨true, "", []⟩),
            (attemptOutcome env).snd.snd⟩ := by
        simp only [callOpenaiStructured]
        rw [hp]
      rw [hq]
      refine ⟨⟨_, rfl, rfl⟩, hplain, ?_, ?_, ?_⟩
      · intro hk; cases hk
      · intro _ _; rfl
      · intro hk; cases hk
    | roleDecision =>
      have hq0 := hprofile (roleFallbackResolvedId registry defaultRoleId
        (pyStrip (attemptOutcome env).fst))
      rw [Option.isSome_iff_exists] at hq0
      obtain ⟨profile, hpr⟩ := hq0
      have hq : callOpenaiStructured registry defaultRoleId parse
          .roleDecision prompt env
          = ⟨.ok (.roleDecision ⟨roleFallbackResolvedId registry
              defaultRoleId (pyStrip (attemptOutcome env).fst),
              profile.name,
              (if ((attemptOutcome env).snd.fst.isSome
                  && (pyStrip (attemptOutcome env).fst).isEmpty)
               then "Fallback due to OpenAI error: "
                 ++ (attemptOutcome env).snd.fst.getD ""
               else "Fallback parse from model output: "
                 ++ (if (pyTake (pyStrip (attemptOutcome env).fst)
                        120).isEmpty
                     then "无理由"
                     else pyTake (pyStrip (attemptOutcome env).fst) 120)),
              true,
              "Default to allow unless the intent is ambiguous."⟩),
            (attemptOutcome env).snd.snd⟩ := by
        simp only [callOpenaiStructured]
        rw [hp, hpr]
      rw [hq]
      refine ⟨⟨_, rfl, rfl⟩, hplain, ?_, ?_, ?_⟩
      · intro hk; cases hk
      · intro hk; cases hk
      · intro _ _; exact ⟨_, rfl, rfl⟩

/-- Witness for `c6_structured_decoder`: structured attempt raised, plain
retry made, role default keyword-matches the registry. -/
theorem c6_structured_decoder_witness :
    (∃ v, (callOpenaiStructured regAB "alpha" parseAlwaysNone
        .roleDecision "p" env6w).result = .ok v ∧ schemaKindOf v = .roleDecision)
    ∧ (callOpenaiStructured regAB "alpha" parseAlwaysNone
        .roleDecision "p" env6w).plainCalled = structuredAttemptRaised env6w
    ∧ (SchemaKind.roleDecision = .searchQueryList →
        parseAlwaysNone .roleDecision (attemptOutcome env6w).fst = none →
        ∃ rat, (callOpenaiStructured regAB "alpha" parseAlwaysNone
            .roleDecision "p" env6w).result
          = .ok (.searchQueryList { query := ["p"], rationale := rat }))
    ∧ (SchemaKind.roleDecision = .reflection →
        parseAlwaysNone .roleDecision (attemptOutcome env6w).fst = none →
        (callOpenaiStructured regAB "alpha" parseAlwaysNone
            .roleDecision "p" env6w).result
          = .ok (.reflection ⟨true, "", []⟩))
    ∧ (SchemaKind.roleDecision = .roleDecision →
        parseAlwaysNone .roleDecision (attemptOutcome env6w).fst = none →
        ∃ rd, (callOpenaiStructured regAB "alpha" parseAlwaysNone
            .roleDecision "p" env6w).result = .ok (.roleDecision rd)
          ∧ rd.role_id = roleFallbackResolvedId regAB "alpha"
              (pyStrip (attemptOutcome env6w).fst)) :=
  c6_structured_decoder regAB "alpha" parseAlwaysNone .roleDecision "p"
    env6w (by intro k s v h; cases h) (by decide)

/-! Claim C8 — streaming tool-call collection. -/

theorem pyDictGet_pyDictSet_self {α : Type} (m : List (String × α))
    (k : String) (v : α) : pyDictGet (pyDictSet m k v) k = some v := by
  induction m with
  | nil => simp [pyDictSet, pyDictGet, List.find?]
  | cons p rest ih =>
    unfold pyDictSet
    by_cases h : (p.fst == k) = true
    · rw [if_pos h]
      unfold pyDictGet
      rw [List.find?_cons_of_pos _ (by simp)]
      rfl
    · rw [if_neg h]
      show pyDictGet (p :: pyDictSet rest k v) k = some v
      unfold pyDictGet
      rw [List.find?_cons_of_neg _ (by simpa using h)]
      exact ih

/-- C8: a tool call appears in the collector result exactly when its
accumulated record has a non-empty name; its argument string becomes an
empty object when blank, the parsed JSON when it parses, and the raw
string otherwise; and per event, arguments concatenate on delta and are
overwritten on done, keyed through the item-id/call-id alias map. -/
theorem c8_collector (jsonParse : String → Option JVal)
    (events : List StreamEvent) :
    (∀ c ∈ (collectStreamTextAndTools jsonParse events).snd,
      c.name.isEmpty = false)
    ∧ (∀ kr ∈ (collectRecords events).records,
        kr.snd.name.isEmpty = false →
        (⟨kr.snd.id, kr.snd.name, finalToolArgs jsonParse kr.snd.arguments⟩
          : CollectedCall) ∈ (collectStreamTextAndTools jsonParse events).snd)
    ∧ (∀ c ∈ (collectStreamTextAndTools jsonParse events).snd,
        ∃ kr ∈ (collectRecords events).records,
          kr.snd.name = c.name ∧ kr.snd.id = c.id
          ∧ c.arguments = finalToolArgs jsonParse kr.snd.arguments)
    ∧ (∀ s, finalToolArgs jsonParse s
        = if (pyStrip s).isEmpty then .obj []
          else match jsonParse s with
            | some v => v
            | none => .str s)
    ∧ (∀ (st : CollectState) (itemId delta : String),
        itemId.isEmpty = false →
        recordArgs (collectStep st (.argsDelta itemId delta)).records
          (resolveCallId st.aliasMap itemId)
        = recordArgs st.records (resolveCallId st.aliasMap itemId) ++ delta)
    ∧ (∀ (st : CollectState) (itemId args : String),
        itemId.isEmpty = false →
        recordArgs (collectStep st (.argsDone itemId args)).records
          (resolveCallId st.aliasMap itemId) = args) := by
  refine ⟨?_, ?_, ?_, fun s => rfl, ?_, ?_⟩
  · intro c hc
    rw [show (collectStreamTextAndTools jsonParse events).snd
      = collectFinalize jsonParse (collectRecords events).records from rfl,
      collectFinalize, List.mem_filterMap] at hc
    obtain ⟨p, _, hp⟩ := hc
    by_cases hn : p.snd.name.isEmpty
    · rw [if_pos hn] at hp; cases hp
    · rw [if_neg hn] at hp
      injection hp with hp
      rw [← hp]
      simpa using hn
  · intro kr hkr hname
    rw [show (collectStreamTextAndTools jsonParse events).snd
      = collectFinalize jsonParse (collectRecords events).records from rfl,
      collectFinalize, List.mem_filterMap]
    exact ⟨kr, hkr, by rw [if_neg (by simp [hname])]⟩
  · intro c hc
    rw [show (collectStreamTextAndTools jsonParse events).snd
      = collectFinalize jsonParse (collectRecords events).records from rfl,
      collectFinalize, List.mem_filterMap] at hc
    obtain ⟨p, hmem, hp⟩ := hc
    by_cases hn : p.snd.name.isEmpty
    · rw [if_pos hn] at hp; cases hp
    · rw [if_neg hn] at hp
      injection hp with hp
      exact ⟨p, hmem, by rw [← hp], by rw [← hp], by rw [← hp]⟩
  · intro st itemId delta h
    simp only [collectStep]
    rw [if_neg (by simp [h])]
    cases hr : pyDictGet st.records (resolveCallId st.aliasMap itemId) with
    | some r =>
      unfold recordArgs
      rw [pyDictGet_pyDictSet_self, hr]
      rfl
    | none =>
      unfold recordArgs
      rw [pyDictGet_pyDictSet_self, hr]
      simp
  · intro st itemId args h
    simp only [collectStep]
    rw [if_neg (by simp [h])]
    cases hr : pyDictGet st.records (resolveCallId st.aliasMap itemId) with
    | some r =>
      unfold recordArgs
      rw [pyDictGet_pyDictSet_self]
      rfl
    | none =>
      unfold recordArgs
      rw [pyDictGet_pyDictSet_self]
      rfl

/-- Witness for `c8_collector`: concrete delta concatenation, done
overwrite, and blank-argument parsing on a concrete stream. -/
theorem c8_collector_witness :
    recordArgs (collectStep (collectRecords evts8)
        (.argsDelta "i1" "zz")).records
      (resolveCallId (collectRecords evts8).aliasMap "i1")
    = recordArgs (collectRecords evts8).records
        (resolveCallId (collectRecords evts8).aliasMap "i1") ++ "zz"
    ∧ recordArgs (collectStep (collectRecords evts8)
        (.argsDone "i1" "ww")).records
      (resolveCallId (collectRecords evts8).aliasMap "i1") = "ww"
    ∧ finalToolArgs jpNone " "
      = (if (pyStrip " ").isEmpty then JVal.obj []
         else match jpNone " " with
           | some v => v
           | none => .str " ") := by
  have h := c8_collector jpNone evts8
  exact ⟨h.2.2.2.2.1 (collectRecords evts8) "i1" "zz" rfl,
    h.2.2.2.2.2 (collectRecords evts8) "i1" "ww" rfl,
    h.2.2.2.1 " "⟩

/-! Claim C2 — no duplicate connect pairs from the continuity passes. -/

/-- C2 counterexample: the model proposed `connectNodes` with exactly the
pair the storyboard-to-video auto-chaining derives ("宝宝分镜" →
"宝宝15s视频") without creating a composeVideo node; the chaining pass
appends the same pair again, so the output holds two identical connect
pairs although the input batch's pairs were distinct. -/
theorem c2_duplicate_pair_counterexample :
    (connPairs c2cexBatch).Nodup
    ∧ ¬ (connPairs (continuityPasses "" none c2cexBatch)).Nodup :=
  ⟨by decide, by decide⟩

theorem connPairs_append (a b : List ToolCall) :
    connPairs (a ++ b) = connPairs a ++ connPairs b :=
  List.filterMap_append a b connSrcTgt

theorem connSrcTgt_mkRefConnect (src tgt : String)
    (hs : pyStrip src = src) (hs2 : src.isEmpty = false)
    (ht : pyStrip tgt = tgt) (ht2 : tgt.isEmpty = false) :
    connSrcTgt (mkRefConnect src tgt) = some (src, tgt) := by
  simp [connSrcTgt, mkRefConnect, pyDictGet, pyOrJ, jTruthy, asStr,
    hs, ht, hs2, ht2]

theorem connSrcTgt_mkGeneralRefConnect (src tgt : String)
    (hs : pyStrip src = src) (hs2 : src.isEmpty = false)
    (ht : pyStrip tgt = tgt) (ht2 : tgt.isEmpty = false) :
    connSrcTgt (mkGeneralRefConnect src tgt) = some (src, tgt) := by
  simp [connSrcTgt, mkGeneralRefConnect, pyDictGet, pyOrJ, jTruthy, asStr,
    hs, ht, hs2, ht2]

theorem connSrcTgt_mkAutoVideoCreate (sb : String) (p : Option String) :
    connSrcTgt (mkAutoVideoCreate sb p) = none := by
  simp [connSrcTgt, mkAutoVideoCreate]

theorem connSrcTgt_mkAutoVideoConnect (sb : String)
    (hs : pyStrip sb = sb) (hs2 : sb.isEmpty = false) :
    connSrcTgt (mkAutoVideoConnect sb) =
      (if ((videoLabelFor sb).isEmpty || (pyStrip (videoLabelFor sb)).isEmpty)
       then none else some (sb, pyStrip (videoLabelFor sb))) := by
  by_cases h1 : (videoLabelFor sb).isEmpty
  · simp [connSrcTgt, mkAutoVideoConnect, pyDictGet, pyOrJ, jTruthy, asStr,
      hs, hs2, h1]
  · by_cases h2 : (pyStrip (videoLabelFor sb)).isEmpty
    · simp [connSrcTgt, mkAutoVideoConnect, pyDictGet, pyOrJ, jTruthy, asStr,
        hs, hs2, h1, h2]
    · simp [connSrcTgt, mkAutoVideoConnect, pyDictGet, pyOrJ, jTruthy, asStr,
        hs, hs2, h1, h2]

theorem generalRefTargetOf_props {upstream : String} {c : ToolCall}
    {t : String} (h : generalRefTargetOf upstream c = some t) :
    pyStrip t = t ∧ t.isEmpty = false := by
  unfold generalRefTargetOf at h
  split at h
  · cases hs : argStr c "label" with
    | none => rw [hs] at h; cases h
    | some s =>
      rw [hs] at h
      simp only at h
      by_cases he : (pyStrip s).isEmpty
      · rw [if_pos he] at h; cases h
      · rw [if_neg he] at h
        by_cases hu : (pyStrip s == upstream) = true
        · rw [if_pos hu] at h; cases h
        · rw [if_neg hu] at h
          split at h
          · cases h
          · obtain rfl : pyStrip s = t := by injection h
            exact ⟨pyStrip_idem s, by simpa using he⟩
  · cases h

theorem refCandidateOf_label {sb : String} {idx : Nat} {n : JVal}
    {cand : RefCandidate} (h : refCandidateOf sb idx n = some cand) :
    pyStrip cand.label = cand.label ∧ cand.label.isEmpty = false
      ∧ cand.label ≠ sb := by
  unfold refCandidateOf at h
  split at h
  · cases h
  · rename_i f _
    cases hl : strFieldStripped f "label" with
    | none => rw [hl] at h; cases h
    | some label =>
      rw [hl] at h
      simp only at h
      by_cases hsb : (label == sb) = true
      · rw [if_pos hsb] at h; cases h
      · rw [if_neg hsb] at h
        obtain ⟨hst, hne⟩ := strFieldStripped_stripped hl
        have hne2 : label ≠ sb := by
          intro he; exact hsb (by simp [he])
        split at h
        · cases h
        · split at h
          · cases h
          · split at h
            · rename_i u _
              by_cases hu : (pyStrip u).isEmpty
              · rw [if_pos hu] at h; cases h
              · rw [if_neg hu] at h
                split at h
                · cases h
                · obtain rfl : _ = cand := by injection h
                  exact ⟨hst, hne, hne2⟩
            · cases h

theorem pickRefLabels_props (ctx : Option JVal) (sb : String) :
    ∀ l ∈ pickReferenceImageLabelsFromCanvasContext ctx sb,
      pyStrip l = l ∧ l.isEmpty = false ∧ l ≠ sb := by
  intro l hl
  unfold pickReferenceImageLabelsFromCanvasContext at hl
  rw [List.mem_map] at hl
  obtain ⟨c, hc, rfl⟩ := hl
  have hc2 : c ∈ refCandidates ctx sb :=
    (List.perm_insertionSort refCandDescP _).subset (List.mem_of_mem_take hc)
  unfold refCandidates at hc2
  split at hc2
  · split at hc2
    · rename_i nodes _
      by_cases he : nodes.isEmpty
      · rw [if_pos he] at hc2; cases hc2
      · rw [if_neg he] at hc2
        rw [List.mem_filterMap] at hc2
        obtain ⟨p, _, hp⟩ := hc2
        exact refCandidateOf_label hp
    · cases hc2
  · cases hc2

theorem storyboardCreateInfo_label {batch : List ToolCall} {sb : String}
    {p : Option String}
    (h : storyboardCreateInfo batch = some (some sb, p)) :
    pyStrip sb = sb ∧ sb.isEmpty = false := by
  unfold storyboardCreateInfo at h
  obtain ⟨c, _, hc⟩ := List.exists_of_findSome?_eq_some h
  split at hc
  · simp only at hc
    split at hc
    · obtain ⟨h1, _⟩ : argStrStripped c "label" = some sb ∧ _ := by
        injection hc with hc2
        injection hc2 with ha hb
        exact ⟨ha, hb⟩
      exact strFieldStripped_stripped h1
    · cases hc
  · cases hc

theorem latestSuccessImageOf_props {n : JVal} {u : String}
    (h : latestSuccessImageOf n = some u) :
    pyStrip u = u ∧ u.isEmpty = false := by
  unfold latestSuccessImageOf at h
  split at h
  · cases h
  · rename_i f _
    simp only at h
    split at h
    · cases h
    · split at h
      · cases h
      · cases hl : strFieldStripped f "label" with
        | none => rw [hl] at h; cases h
        | some label =>
          rw [hl] at h
          simp only at h
          split at h
          · cases h
          · split at h
            · rename_i url _
              by_cases hu : (pyStrip url).isEmpty
              · rw [if_pos hu] at h; cases h
              · rw [if_neg hu] at h
                obtain rfl : label = u := by injection h
                exact strFieldStripped_stripped hl
            · cases h

theorem pickLatestSuccessImageLabel_props {ctx : Option JVal} {u : String}
    (h : pickLatestSuccessImageLabel ctx = some u) :
    pyStrip u = u ∧ u.isEmpty = false := by
  unfold pickLatestSuccessImageLabel at h
  split at h
  · split at h
    · rename_i nodes _
      by_cases he : nodes.isEmpty
      · rw [if_pos he] at h; cases h
      · rw [if_neg he] at h
        obtain ⟨m, _, hm⟩ := List.exists_of_findSome?_eq_some h
        exact latestSuccessImageOf_props hm
    · cases h
  · cases h

theorem contains_false_not_mem {α : Type} [BEq α] [LawfulBEq α]
    {l : List α} {a : α} (h : l.contains a = false) : a ∉ l := by
  intro hm
  have h2 : l.contains a = true := by
    simpa using List.elem_eq_true_of_mem hm
  rw [h2] at h
  cases h

theorem refConnectCallsPairs (sb : String)
    (hsb1 : pyStrip sb = sb) (hsb2 : sb.isEmpty = false)
    (ex : List (String × String)) :
    ∀ refL : List String,
      (∀ l ∈ refL, pyStrip l = l ∧ l.isEmpty = false) →
      (refL.filterMap (fun src =>
          if ex.contains (src, sb) then none
          else some (mkRefConnect src sb))).filterMap connSrcTgt
        = (refL.filter (fun src => !ex.contains (src, sb))).map
            (fun src => (src, sb)) := by
  intro refL
  induction refL with
  | nil => intro _; rfl
  | cons l rest ih =>
    intro hprops
    obtain ⟨hl1, hl2⟩ := hprops l (by simp)
    have ihr := ih (fun y hy => hprops y (List.mem_cons_of_mem l hy))
    by_cases hc : ex.contains (l, sb) = true
    · simp only [List.filterMap_cons, List.filter_cons, hc, if_true,
        Bool.not_true, Bool.false_eq_true, if_false]
      exact ihr
    · have hc2 : ex.contains (l, sb) = false := by
        simpa using hc
      simp only [List.filterMap_cons, List.filter_cons, hc2,
        Bool.false_eq_true, if_false, Bool.not_false, if_true,
        connSrcTgt_mkRefConnect l sb hl1 hl2 hsb1 hsb2, List.map_cons]
      exact congrArg (List.cons (l, sb)) ihr

theorem storyboardRefLinkPass_pairs (ctx : Option JVal) (sb : String)
    (batch : List ToolCall)
    (hsb1 : pyStrip sb = sb) (hsb2 : sb.isEmpty = false) :
    ∃ new : List (String × String),
      (connPairs (storyboardRefLinkPass ctx sb batch)).Perm
        (new ++ connPairs batch)
      ∧ ((pickReferenceImageLabelsFromCanvasContext ctx sb).Nodup →
          new.Nodup)
      ∧ ∀ p ∈ new, p.fst ≠ sb ∧ p.snd = sb ∧ p ∉ connPairs batch := by
  have hprops := pickRefLabels_props ctx sb
  have hpairs := refConnectCallsPairs sb hsb1 hsb2 (connPairs batch)
    (pickReferenceImageLabelsFromCanvasContext ctx sb)
    (fun l hl => ⟨(hprops l hl).1, (hprops l hl).2.1⟩)
  have hinj : Function.Injective (fun src : String => (src, sb)) :=
    fun a b h => congrArg Prod.fst h
  simp only [storyboardRefLinkPass]
  by_cases hre : (pickReferenceImageLabelsFromCanvasContext ctx sb).isEmpty
  · rw [if_pos hre]
    exact ⟨[], by simp, fun _ => List.nodup_nil, by simp⟩
  · rw [if_neg hre]
    by_cases hcc : ((pickReferenceImageLabelsFromCanvasContext ctx sb).filterMap
        (fun src => if (connPairs batch).contains (src, sb) then none
          else some (mkRefConnect src sb))).isEmpty
    · rw [if_pos hcc]
      exact ⟨[], by simp, fun _ => List.nodup_nil, by simp⟩
    · rw [if_neg hcc]
      refine ⟨((pickReferenceImageLabelsFromCanvasContext ctx sb).filter
          (fun src => !(connPairs batch).contains (src, sb))).map
            (fun src => (src, sb)), ?_, ?_, ?_⟩
      · have hperm := filterMap_pyInsertMany_perm connSrcTgt batch
          (match (storyboardScanGo sb batch 0 none).fst with
           | some ci =>
             if (match (storyboardScanGo sb batch 0 none).snd with
                 | some r => r
                 | none => batch.length) ≤ ci then ci + 1
             else (match (storyboardScanGo sb batch 0 none).snd with
                   | some r => r
                   | none => batch.length)
           | none => (match (storyboardScanGo sb batch 0 none).snd with
                      | some r => r
                      | none => batch.length))
          ((pickReferenceImageLabelsFromCanvasContext ctx sb).filterMap
            (fun src => if (connPairs batch).contains (src, sb) then none
              else some (mkRefConnect src sb)))
        rw [hpairs] at hperm
        exact hperm
      · intro hnd
        exact (hnd.filter _).map hinj
      · intro p hp
        rw [List.mem_map] at hp
        obtain ⟨src, hsrc, rfl⟩ := hp
        rw [List.mem_filter] at hsrc
        obtain ⟨hmem, hfil⟩ := hsrc
        refine ⟨(hprops src hmem).2.2, rfl, ?_⟩
        exact contains_false_not_mem (Bool.not_eq_true' .. |>.mp hfil)

theorem generalContinuityGo_nodup (upstream : String)
    (hU1 : pyStrip upstream = upstream) (hU2 : upstream.isEmpty = false)
    (pairs0 : List (String × String)) :
    ∀ (snap : List ToolCall) (idx : Nat) (live : List ToolCall)
      (targets : List String),
      (connPairs live).Nodup →
      (∀ p ∈ connPairs live,
        p ∈ pairs0 ∨ (p.fst = upstream ∧ p.snd ∈ targets)) →
      (connPairs
        (generalContinuityGo upstream pairs0 snap idx live targets)).Nodup := by
  intro snap
  induction snap with
  | nil =>
    intro idx live targets hnd _
    exact hnd
  | cons c rest ih =>
    intro idx live targets hnd hinv
    unfold generalContinuityGo
    cases hgt : generalRefTargetOf upstream c with
    | none =>
      simp only [hgt]
      exact ih (idx + 1) live targets hnd hinv
    | some t =>
      simp only [hgt]
      by_cases hskip :
          (targets.contains t || pairs0.contains (upstream, t)) = true
      · rw [if_pos hskip]
        exact ih (idx + 1) live targets hnd hinv
      · rw [if_neg hskip]
        obtain ⟨ht1, ht2⟩ := generalRefTargetOf_props hgt
        simp only [Bool.or_eq_true, not_or, Bool.not_eq_true] at hskip
        obtain ⟨htc, hpc⟩ := hskip
        have hnotmem : (upstream, t) ∉ connPairs live := by
          intro hm
          rcases hinv _ hm with h0 | ⟨_, hts⟩
          · have : pairs0.contains (upstream, t) = true := by
              simpa using List.elem_eq_true_of_mem h0
            rw [this] at hpc
            cases hpc
          · have : targets.contains t = true := by
              simpa using List.elem_eq_true_of_mem hts
            rw [this] at htc
            cases htc
        have key : ∀ ia : Nat,
            (connPairs
              (pyInsert live ia (mkGeneralRefConnect upstream t))).Perm
              ((upstream, t) :: connPairs live) := by
          intro ia
          have h0 := filterMap_pyInsertMany_perm connSrcTgt live ia
            [mkGeneralRefConnect upstream t]
          simpa [connPairs,
            connSrcTgt_mkGeneralRefConnect upstream t hU1 hU2 ht1 ht2]
            using h0
        apply ih
        · exact ((key _).nodup_iff).mpr (List.nodup_cons.mpr ⟨hnotmem, hnd⟩)
        · intro p hp
          rcases List.mem_cons.mp ((key _).subset hp) with rfl | hp3
          · exact Or.inr ⟨rfl, by simp⟩
          · rcases hinv p hp3 with h0 | ⟨hf, hs⟩
            · exact Or.inl h0
            · exact Or.inr ⟨hf, List.mem_append_left _ hs⟩

theorem generalContinuityPass_nodup (lastUserText : String)
    (ctx : Option JVal) (b : List ToolCall)
    (h : (connPairs b).Nodup) :
    (connPairs (generalContinuityPass lastUserText ctx b)).Nodup := by
  simp only [generalContinuityPass]
  cases hr : referenceIntent lastUserText with
  | false =>
    simp only [Bool.not_false, if_true]
    exact h
  | true =>
    simp only [Bool.not_true, Bool.false_eq_true, if_false]
    cases hp : pickLatestSuccessImageLabel ctx with
    | none =>
      simp only [hp]
      exact h
    | some u =>
      simp only [hp]
      obtain ⟨hu1, hu2⟩ := pickLatestSuccessImageLabel_props hp
      exact generalContinuityGo_nodup u hu1 hu2 (connPairs b) b 0 b
        (connTargetsOf b) h (fun p hp' => Or.inl hp')

/-- C2 amended: with no duplicate connect pairs in the proposed batch, with
the picked reference labels pairwise distinct, and with the
storyboard-to-video pair not already proposed, the continuity passes emit
no duplicate connect pair. -/
theorem c2_continuity_no_duplicate_pairs (lastUserText : String)
    (ctx : Option JVal) (batch : List ToolCall)
    (h1 : (connPairs batch).Nodup)
    (h2 : ∀ sb, (pickReferenceImageLabelsFromCanvasContext ctx sb).Nodup)
    (h3 : ∀ sb p, storyboardCreateInfo batch = some (some sb, p) →
        (sb, pyStrip (videoLabelFor sb)) ∉ connPairs batch) :
    (connPairs (continuityPasses lastUserText ctx batch)).Nodup := by
  simp only [continuityPasses]
  cases hsb : storyboardCreateInfo batch with
  | none =>
    simp only [hsb]
    exact generalContinuityPass_nodup _ _ _ h1
  | some info =>
    obtain ⟨lopt, popt⟩ := info
    cases lopt with
    | none =>
      simp only [hsb]
      exact generalContinuityPass_nodup _ _ _ h1
    | some sb =>
      simp only [hsb, Option.isSome_some, Bool.or_true, if_true]
      obtain ⟨hsb1, hsb2⟩ := storyboardCreateInfo_label hsb
      obtain ⟨new, hperm, hnodupf, hshape⟩ :=
        storyboardRefLinkPass_pairs ctx sb batch hsb1 hsb2
      have hnd1 : (connPairs (storyboardRefLinkPass ctx sb batch)).Nodup :=
        hperm.nodup_iff.mpr (List.Nodup.append (hnodupf (h2 sb)) h1
          (fun p hp hp' => (hshape p hp).2.2 hp'))
      cases hv : hasComposeVideoCreate batch with
      | true =>
        simp only [Bool.not_true, Bool.and_false, Bool.false_eq_true,
          if_false]
        exact generalContinuityPass_nodup _ _ _ hnd1
      | false =>
        simp only [Bool.not_false, Bool.and_true, Bool.and_self, if_true]
        apply generalContinuityPass_nodup
        rw [storyboardVideoChainPass, connPairs_append]
        have hc1 := connSrcTgt_mkAutoVideoCreate sb popt
        have hc2 := connSrcTgt_mkAutoVideoConnect sb hsb1 hsb2
        by_cases hvl : ((videoLabelFor sb).isEmpty
            || (pyStrip (videoLabelFor sb)).isEmpty) = true
        · have hz : connPairs
              [mkAutoVideoCreate sb popt, mkAutoVideoConnect sb] = [] := by
            simp [connPairs, List.filterMap_cons, hc1, hc2, hvl]
          rw [hz, List.append_nil]
          exact hnd1
        · have hvl' : ((videoLabelFor sb).isEmpty
              || (pyStrip (videoLabelFor sb)).isEmpty) = false := by
            simpa using hvl
          have hz : connPairs
              [mkAutoVideoCreate sb popt, mkAutoVideoConnect sb]
              = [(sb, pyStrip (videoLabelFor sb))] := by
            simp [connPairs, List.filterMap_cons, hc1, hc2, hvl']
          rw [hz]
          refine List.Nodup.append hnd1 (List.nodup_singleton _) ?_
          intro p hp hp2
          rw [List.mem_singleton] at hp2
          subst hp2
          rcases List.mem_append.mp (hperm.subset hp) with hnew | hold
          · exact (hshape _ hnew).1 rfl
          · exact absurd hold (h3 sb popt hsb)

theorem c2_continuity_no_duplicate_pairs_witness :
    (connPairs (continuityPasses "" none c2wBatch)).Nodup :=
  c2_continuity_no_duplicate_pairs "" none c2wBatch (by decide)
    (fun _ => List.nodup_nil)
    (fun sb p h => by
      intro hm
      rw [show connPairs c2wBatch = [] from by decide] at hm
      cases hm)

/-- C4: the ordering invariant is not preserved.  `c4cexBatch` creates
images "A" and "B" and satisfies the invariant; on a reference-intent
turn with upstream "U", general continuity inserts the connect for "A" at
live index 1 and then the connect for "B" at snapshot index 2 of the
grown live list, which now lands BEFORE the `createNode` of "B". -/
theorem c4_insert_index_code_bug :
    orderOk c4cexBatch = true
    ∧ orderOk (processToolCalls c4cexUserText fixCtxU false c4cexBatch).fst
        = false :=
  ⟨by decide, by decide⟩

/-- C1: on a gated turn (`allow_canvas_tools = False`) with generator text
"好的，我明白了。" and a proposed create, the batch is emptied and the text
kept, but the `tapcanvas_actions` extraction then overwrites the gate's
quick replies with `None`, so NO quick replies are attached; likewise when
the generator produced no text (holding text substituted, replies still
lost). -/
theorem c1_gate_quick_replies_dropped :
    ((finalizeAnswerOpenai jpNone "你好" none (some false) []
        "好的，我明白了。" c1cexCalls).toolCalls.isEmpty = true
      ∧ (finalizeAnswerOpenai jpNone "你好" none (some false) []
          "好的，我明白了。" c1cexCalls).quickReplies.isEmpty = true
      ∧ (finalizeAnswerOpenai jpNone "你好" none (some false) []
          "好的，我明白了。" c1cexCalls).content = "好的，我明白了。")
    ∧ ((finalizeAnswerOpenai jpNone "你好" none (some false) [] ""
        c1cexCalls).quickReplies.isEmpty = true
      ∧ (finalizeAnswerOpenai jpNone "你好" none (some false) [] ""
          c1cexCalls).content = gateHoldingText) :=
  ⟨⟨by decide, by decide, by decide⟩, ⟨by decide, by decide⟩⟩
